import Mathlib

/-!
Verification of the selection state machine, tween engine, camera pose
solver and tap resolution implemented in `src/App.jsx` of the interactive
cube viewer.

Modelling conventions.

* JavaScript numbers are modelled as rationals (`ℚ`) throughout the state
  machine: every branch condition of the translated code compares plain
  numeric expressions, and the decimal literals of the source are taken at
  their decimal value (the gap between a decimal literal and its IEEE-754
  rounding never influences any statement proved here).  `Math.PI` is the
  IEEE-754 double closest to pi, an exact rational, kept as `jsPI`.
* The purely geometric angle helpers and the camera pose solver are also
  modelled over `ℝ` (namespace `CubeR`) where genuine trigonometry and the
  mathematical `Real.pi` appear; there the definitions are necessarily
  noncomputable, as is all real trigonometry.
* `performance.now()` is passed to each operation as an explicit `now`
  argument.
* Object identity: a three.js mesh or group is identified by its `uuid`;
  a mesh records the `uuid`/`name` pairs of itself and of its ancestor
  chain (the `parent` pointers walked by `findCubeName`) and the uuids of
  its materials.  After `prepareFaceForFade` every face mesh owns a cloned
  material, so material opacity is keyed by the owning mesh uuid.
* React state mirrors (`setSelectedCubeName`), the Leva control sync, the
  side panel state and the emissive colour details behind the emphasis
  (glow) flag are UI concerns outside the verified core; the emphasis flag
  itself is kept.
-/

namespace Cube

/-- `SELECTED_CUBE_SCALE = 1.28` (App.jsx). -/
def SELECTED_CUBE_SCALE : ℚ := 128 / 100

/-- `SELECTED_CUBE_BOUNCE = 1.38` (App.jsx). -/
def SELECTED_CUBE_BOUNCE : ℚ := 138 / 100

/-- `DIMMED_CUBE_SCALE = 0.82` (App.jsx). -/
def DIMMED_CUBE_SCALE : ℚ := 82 / 100

/-- `DIMMED_CUBE_BOUNCE = 0.76` (App.jsx). -/
def DIMMED_CUBE_BOUNCE : ℚ := 76 / 100

/-- `DIMMED_FACE_OPACITY = 0.15` (App.jsx). -/
def DIMMED_FACE_OPACITY : ℚ := 15 / 100

/-- `CLICK_DRAG_THRESHOLD_PX = 8` (App.jsx). -/
def CLICK_DRAG_THRESHOLD_PX : ℚ := 8

/-- `TOUCH_DRAG_THRESHOLD_PX = 22` (App.jsx). -/
def TOUCH_DRAG_THRESHOLD_PX : ℚ := 22

/-- `CLICK_INTERACTION_FOV = 26` (App.jsx). -/
def CLICK_INTERACTION_FOV : ℚ := 26

/-- `MIN_CLICK_PRESS_MS = 30` (App.jsx). -/
def MIN_CLICK_PRESS_MS : ℚ := 30

/-- The IEEE-754 double `Math.PI`, an exact rational:
`884279719003555 * 2 ^ (-48)`. -/
def jsPI : ℚ := 884279719003555 / 281474976710656

/-- `clamp(v, min, max) = Math.max(min, Math.min(max, v))` (App.jsx). -/
def clamp (v lo hi : ℚ) : ℚ := max lo (min hi v)

/-- `easeInOutCubic(t)` (App.jsx). -/
def easeInOutCubic (t : ℚ) : ℚ :=
  if t < 1 / 2 then 4 * t * t * t else 1 - (-2 * t + 2) ^ 3 / 2

/-- `easeOutCubic(t)` (App.jsx). -/
def easeOutCubic (t : ℚ) : ℚ := 1 - (1 - t) ^ 3

/-- `easeOutBack(t, amplitude)` (App.jsx); `c1 = 1.70158 * amplitude`. -/
def easeOutBack (t amplitude : ℚ) : ℚ :=
  let c1 := 170158 / 100000 * amplitude
  let c3 := c1 + 1
  1 + c3 * (t - 1) ^ 3 + c1 * (t - 1) ^ 2

/-- Truncation toward zero, the rounding used by the JS `%` operator. -/
def jsTrunc (x : ℚ) : ℤ := if 0 ≤ x then ⌊x⌋ else ⌈x⌉

/-- The JS remainder `x % y` (the sign of the result follows `x`). -/
def jsMod (x y : ℚ) : ℚ := x - y * jsTrunc (x / y)

/-- `normalizeAngle0ToTau(angle) = ((angle % tau) + tau) % tau` (App.jsx). -/
def normalizeAngle0ToTau (angle : ℚ) : ℚ :=
  let tau := jsPI * 2
  jsMod (jsMod angle tau + tau) tau

/-- `normalizeAngleMinusPiToPi(angle)` (App.jsx):
`((angle + PI) % tau + tau) % tau - PI`. -/
def normalizeAngleMinusPiToPi (angle : ℚ) : ℚ :=
  let tau := jsPI * 2
  jsMod (jsMod (angle + jsPI) tau + tau) tau - jsPI

/-- `shortestAngleDelta(from, to)` (App.jsx): normalize both angles into
`[0, tau)`, subtract, then wrap the difference into `[-PI, PI]` with the two
sequential conditionals of the source. -/
def shortestAngleDelta (fromAngle toAngle : ℚ) : ℚ :=
  let tau := jsPI * 2
  let a := normalizeAngle0ToTau fromAngle
  let b := normalizeAngle0ToTau toAngle
  let d := b - a
  let d1 := if d > jsPI then d - tau else d
  if d1 < -jsPI then d1 + tau else d1

/-- Identity and name of a scene object (a three.js `Object3D`). -/
structure Node where
  uuid : ℕ
  name : String
deriving DecidableEq

/-- A mesh: its own node, the nodes of its ancestor chain (nearest parent
first, exactly the chain walked by `findCubeName`), and the uuids of its
materials (`mesh.material`, one or several). -/
structure Mesh where
  node : Node
  ancestors : List Node
  matUUIDs : List ℕ
deriving DecidableEq

/-- The parent walk starting at the object itself, as in
`let cur = obj; while (cur) ... cur = cur.parent`. -/
def Mesh.chain (m : Mesh) : List Node := m.node :: m.ancestors

/-- An in-flight opacity tween (entry of `animRef.current.opacity`). -/
structure OpacityTween where
  fromVal : ℚ
  toVal : ℚ
  t0 : ℚ
  dur : ℚ
deriving DecidableEq

/-- An in-flight scale tween (entry of `animRef.current.scale`), with the
intermediate `bounce` value of the two-segment ease. -/
structure ScaleTween where
  fromVal : ℚ
  bounce : ℚ
  toVal : ℚ
  t0 : ℚ
  dur : ℚ
deriving DecidableEq

/-- The singleton intro slide tween (`animRef.current.center`). -/
structure CenterTween where
  fromX : ℚ
  toX : ℚ
  fromRotY : ℚ
  toRotY : ℚ
  amplitude : ℚ
  t0 : ℚ
  dur : ℚ
deriving DecidableEq

/-- A 3D point (look-at targets, model center). -/
structure Vec3 where
  x : ℚ
  y : ℚ
  z : ℚ
deriving DecidableEq

/-- The singleton camera tween (`animRef.current.camera`).  The fov fields
are optional exactly as in the source (`typeof fov === "number"` guards). -/
structure CameraTween where
  t0 : ℚ
  dur : ℚ
  fromAz : ℚ
  dAz : ℚ
  fromPol : ℚ
  toPol : ℚ
  fromDist : ℚ
  toDist : ℚ
  target : Vec3
  lockDistanceAtEnd : Bool
  fromFov : Option ℚ
  toFov : Option ℚ
deriving DecidableEq

/-- The tween registry `animRef.current`: two JS `Map`s keyed by target
uuid (modelled as association lists in insertion order) and the two
singleton slots. -/
structure AnimState where
  opacity : List (ℕ × OpacityTween)
  scale : List (ℕ × ScaleTween)
  center : Option CenterTween
  camera : Option CameraTween
deriving DecidableEq

/-- `Map.get` on an association list. -/
def alookup {κ α : Type} [DecidableEq κ] : List (κ × α) → κ → Option α
  | [], _ => none
  | (k', v) :: rest, k => if k' = k then some v else alookup rest k

/-- `Map.set`: replace the value at an existing key in place (a JS `Map`
keeps the original insertion position), else append. -/
def mapSet {κ α : Type} [DecidableEq κ] : List (κ × α) → κ → α → List (κ × α)
  | [], k, v => [(k, v)]
  | (k', v') :: rest, k, v =>
      if k' = k then (k, v) :: rest else (k', v') :: mapSet rest k v

/-- The elapsed fraction `Math.min(1, (now - t0) / dur)` computed by the
`Animator` frame for every tween kind. -/
def tweenT (t0 dur now : ℚ) : ℚ := min 1 ((now - t0) / dur)

/-- Value an opacity tween writes at time `now` (Animator, opacity loop). -/
def sampleOpacity (now : ℚ) (tw : OpacityTween) : ℚ :=
  tw.fromVal + (tw.toVal - tw.fromVal) * easeInOutCubic (tweenT tw.t0 tw.dur now)

/-- Value a scale tween writes at time `now` (Animator, scale loop): ease
to `bounce` over the first 55% of the duration, then ease to the end. -/
def sampleScale (now : ℚ) (tw : ScaleTween) : ℚ :=
  let t := tweenT tw.t0 tw.dur now
  let midT : ℚ := 55 / 100
  if t < midT then tw.fromVal + (tw.bounce - tw.fromVal) * easeInOutCubic (t / midT)
  else tw.bounce + (tw.toVal - tw.bounce) * easeInOutCubic ((t - midT) / (1 - midT))

/-- Intro slide: x position uses the back ease (Animator, center block). -/
def sampleCenterX (now : ℚ) (tw : CenterTween) : ℚ :=
  tw.fromX + (tw.toX - tw.fromX) * easeOutBack (tweenT tw.t0 tw.dur now) tw.amplitude

/-- Intro slide: y rotation uses the plain ease-out cubic. -/
def sampleCenterRotY (now : ℚ) (tw : CenterTween) : ℚ :=
  tw.fromRotY + (tw.toRotY - tw.fromRotY) * easeOutCubic (tweenT tw.t0 tw.dur now)

/-- Camera azimuth at time `now` (Animator, camera block). -/
def sampleCameraAz (now : ℚ) (tw : CameraTween) : ℚ :=
  tw.fromAz + tw.dAz * easeInOutCubic (tweenT tw.t0 tw.dur now)

/-- Camera polar angle at time `now`. -/
def sampleCameraPol (now : ℚ) (tw : CameraTween) : ℚ :=
  tw.fromPol + (tw.toPol - tw.fromPol) * easeInOutCubic (tweenT tw.t0 tw.dur now)

/-- The dolly fraction `easeInOutCubic(Math.min(1, t * 1.12))`: the zoom
leads the angular motion slightly. -/
def cameraDistE (now : ℚ) (tw : CameraTween) : ℚ :=
  easeInOutCubic (min 1 (tweenT tw.t0 tw.dur now * (112 / 100)))

/-- Camera distance at time `now`. -/
def sampleCameraDist (now : ℚ) (tw : CameraTween) : ℚ :=
  tw.fromDist + (tw.toDist - tw.fromDist) * cameraDistE now tw

/-- Camera fov at time `now`: written only when both fov endpoints are
numbers; `cur` is the untouched camera fov otherwise. -/
def sampleCameraFov (now : ℚ) (tw : CameraTween) (cur : ℚ) : ℚ :=
  match tw.fromFov, tw.toFov with
  | some f, some g => f + (g - f) * cameraDistE now tw
  | _, _ => cur

/-- The mutable scene values the tweens write: material opacity by owning
mesh uuid, uniform object scale by object uuid, and the intro slide
position/rotation of the `Center` object. -/
structure SceneValues where
  faceOpacity : ℕ → ℚ
  cubeScale : ℕ → ℚ
  centerX : ℚ
  centerRotY : ℚ

/-- The orbit camera scalars (`OrbitControls` plus `camera.fov`): the
Animator writes the spherical pose and `getAzimuthalAngle` etc read it
back. -/
structure CamState where
  az : ℚ
  pol : ℚ
  dist : ℚ
  fov : ℚ
  target : Vec3
  minDistance : ℚ
  maxDistance : ℚ
  enabled : Bool
deriving DecidableEq

/-- An orbit pose: azimuth, polar, distance. -/
structure Pose where
  azimuth : ℚ
  polar : ℚ
  distance : ℚ
deriving DecidableEq

/-- The `interactionRef.current` lookup tables and selection refs built by
`onModelReady` and mutated by the selection machine. -/
structure InteractionRef where
  cubesByName : List (String × Node)
  allFaceMeshes : List Mesh
  faceMeshUUIDs : List ℕ
  bodyMaterialUUIDs : List ℕ
  currentlyExpandedCubeName : Option String
  currentlyClickedFace : Option Mesh
deriving DecidableEq

/-- The Leva values and refs the selection machine reads.  The field
`getCameraPoseForMesh` is the geometric pose solver: its trigonometric
computation is modelled over `ℝ` in namespace `CubeR` and enters the
rational machine as a supplied function, since the selection logic never
inspects the produced pose. -/
structure Config where
  cameraFov : ℚ
  babylonClickDistance : ℚ
  lockTargetToModelCenter : Bool
  cameraProfileBabylonOriginal : Bool
  cameraModeBabylon : Bool
  modelCenter : Vec3
  getCameraPoseForMesh : Mesh → ℚ → Pose

/-- The whole mutable state the verified core touches. -/
structure World where
  anim : AnimState
  scene : SceneValues
  cam : CamState
  glow : ℕ → Bool
  inter : InteractionRef
  selectedCubeName : Option String
  lastSelectionAt : ℚ
  defaultPose : Pose
  cfg : Config
  cameraAnimLock : Bool
  isCameraAnimating : Bool

/-- Animator, opacity loop: write every in-flight sample, then retire the
tweens whose elapsed fraction reached 1 (`if (t >= 1) delete`). -/
def advanceOpacity (now : ℚ) (w : World) : World :=
  { w with
    scene := { w.scene with
      faceOpacity :=
        w.anim.opacity.foldl
          (fun f p => Function.update f p.1 (sampleOpacity now p.2)) w.scene.faceOpacity },
    anim := { w.anim with
      opacity := w.anim.opacity.filter (fun p => tweenT p.2.t0 p.2.dur now < 1) } }

/-- Animator, scale loop. -/
def advanceScale (now : ℚ) (w : World) : World :=
  { w with
    scene := { w.scene with
      cubeScale :=
        w.anim.scale.foldl
          (fun f p => Function.update f p.1 (sampleScale now p.2)) w.scene.cubeScale },
    anim := { w.anim with
      scale := w.anim.scale.filter (fun p => tweenT p.2.t0 p.2.dur now < 1) } }

/-- Animator, center intro tween. -/
def advanceCenter (now : ℚ) (w : World) : World :=
  match w.anim.center with
  | none => w
  | some tw =>
    let w1 := { w with scene := { w.scene with
      centerX := sampleCenterX now tw, centerRotY := sampleCenterRotY now tw } }
    if 1 ≤ tweenT tw.t0 tw.dur now then
      { w1 with anim := { w1.anim with center := none } }
    else w1

/-- Animator, camera tween: write the interpolated orbit pose and fov; on
completion clear the slot, clamp the orbit distance when
`lockDistanceAtEnd`, re-enable the controls and release the animation
lock (`onCameraTweenDone`). -/
def advanceCamera (now : ℚ) (w : World) : World :=
  match w.anim.camera with
  | none => w
  | some tw =>
    let az := sampleCameraAz now tw
    let pol := sampleCameraPol now tw
    let dist := sampleCameraDist now tw
    let fov := sampleCameraFov now tw w.cam.fov
    if 1 ≤ tweenT tw.t0 tw.dur now then
      { w with
        cam := { az := az, pol := pol, dist := dist, fov := fov, target := tw.target,
                 minDistance := if tw.lockDistanceAtEnd then dist else w.cam.minDistance,
                 maxDistance := if tw.lockDistanceAtEnd then dist else w.cam.maxDistance,
                 enabled := true },
        anim := { w.anim with camera := none },
        cameraAnimLock := false,
        isCameraAnimating := false }
    else
      { w with cam := { w.cam with
          az := az, pol := pol, dist := dist, fov := fov, target := tw.target } }

/-- One `useFrame` tick of `Animator`: opacity, then scale, then the
center intro slide, then the camera. -/
def advanceFrame (now : ℚ) (w : World) : World :=
  advanceCamera now (advanceCenter now (advanceScale now (advanceOpacity now w)))

/-- `animateOpacity(mesh, to, dur = 250)`: upsert keyed by the mesh uuid,
sampling the current material opacity as the start value. -/
def animateOpacity (w : World) (now : ℚ) (mesh : Mesh) (toVal dur : ℚ) : World :=
  { w with anim := { w.anim with
      opacity := mapSet w.anim.opacity mesh.node.uuid
        { fromVal := w.scene.faceOpacity mesh.node.uuid, toVal := toVal, t0 := now, dur := dur } } }

/-- `animateScale(obj, to, bounce, dur = 260)`: upsert keyed by the object
uuid, sampling the current `obj.scale.x` as the start value. -/
def animateScale (w : World) (now : ℚ) (obj : Node) (toVal bounce dur : ℚ) : World :=
  { w with anim := { w.anim with
      scale := mapSet w.anim.scale obj.uuid
        { fromVal := w.scene.cubeScale obj.uuid, bounce := bounce, toVal := toVal,
          t0 := now, dur := dur } } }

/-- `setFaceGlow(mesh)`: set the emphasis flag (emissive glow + bloom). -/
def setFaceGlow (w : World) (mesh : Mesh) : World :=
  { w with glow := Function.update w.glow mesh.node.uuid true }

/-- `removeFaceGlow(mesh)`: clear the emphasis flag. -/
def removeFaceGlow (w : World) (mesh : Mesh) : World :=
  { w with glow := Function.update w.glow mesh.node.uuid false }

/-- `resetAllCubes`: every cube scales toward 1.0 (bounce 0.8); every face
fades toward full opacity with the emphasis cleared.  (The optional side
panel closing is UI.) -/
def resetAllCubes (w : World) (now : ℚ) : World :=
  let w1 := w.inter.cubesByName.foldl (fun acc p => animateScale acc now p.2 1 (80 / 100) 260) w
  w1.inter.allFaceMeshes.foldl
    (fun acc face => removeFaceGlow (animateOpacity acc now face 1 250) face) w1

/-- `animateCameraToPreset(to, durationMs, options)`: read the current
orbit scalars as start values, pick the look-at target, optionally widen
the distance limits during the tween, disable the controls and install
the singleton camera tween with `dAz = shortestAngleDelta(fromAz,
to.azimuth)`. -/
def animateCameraToPreset (w : World) (now : ℚ) (toPose : Pose) (durationMs : ℚ)
    (toFovOpt : Option ℚ) : World :=
  let fromAz := w.cam.az
  let fromPol := w.cam.pol
  let fromDist := w.cam.dist
  let fromFov := w.cam.fov
  let forceCenter := w.cfg.lockTargetToModelCenter || w.cfg.cameraProfileBabylonOriginal
  let target := if forceCenter then w.cfg.modelCenter else w.cam.target
  let cam1 := if w.cfg.lockTargetToModelCenter then { w.cam with target := target } else w.cam
  let lockDistanceAtEnd := w.cfg.cameraModeBabylon || w.cfg.cameraProfileBabylonOriginal
  let cam2 :=
    if lockDistanceAtEnd then
      { cam1 with minDistance := min fromDist toPose.distance,
                  maxDistance := max fromDist toPose.distance }
    else cam1
  { w with
    cam := { cam2 with enabled := false },
    cameraAnimLock := true,
    isCameraAnimating := true,
    anim := { w.anim with camera := some {
      t0 := now, dur := durationMs,
      fromAz := fromAz, dAz := shortestAngleDelta fromAz toPose.azimuth,
      fromPol := fromPol, toPol := toPose.polar,
      fromDist := fromDist, toDist := toPose.distance,
      target := target, lockDistanceAtEnd := lockDistanceAtEnd,
      fromFov := some fromFov, toFov := some (toFovOpt.getD fromFov) } } }

/-- `returnToDefault` (the Reset transition, also exposed for external
resets): camera tween to the stored default pose with the base fov,
`resetAllCubes`, then clear the selection refs and the debounce stamp. -/
def returnToDefault (w : World) (now : ℚ) : World :=
  let w1 := animateCameraToPreset w now w.defaultPose 900 (some w.cfg.cameraFov)
  let w2 := resetAllCubes w1 now
  { w2 with
    inter := { w2.inter with currentlyExpandedCubeName := none, currentlyClickedFace := none },
    selectedCubeName := none,
    lastSelectionAt := -1 }

/-- `findCubeName(obj)`: walk the parent chain and return the first name
registered in `cubesByName`. -/
def findCubeName (cubes : List (String × Node)) (obj : Mesh) : Option String :=
  (obj.chain.find? (fun nd => (alookup cubes nd.name).isSome)).map (fun nd => nd.name)

/-- The Block-Switch tail of `applyFaceSelection`: scale the tapped cube
up (bounce overshoot) and every other cube down, fade every face (full
for the tapped face, dimmed otherwise) with the emphasis only on the
tapped face, then record the selection and the debounce stamp. -/
def applyBlockSwitch (w1 : World) (now : ℚ) (clicked : Mesh) (cubeName : String) : World :=
  let w2 := w1.inter.cubesByName.foldl (fun acc p =>
      if p.1 = cubeName then animateScale acc now p.2 SELECTED_CUBE_SCALE SELECTED_CUBE_BOUNCE 260
      else animateScale acc now p.2 DIMMED_CUBE_SCALE DIMMED_CUBE_BOUNCE 260) w1
  let w3 := w2.inter.allFaceMeshes.foldl (fun acc face =>
      if face = clicked then setFaceGlow (animateOpacity acc now face 1 250) face
      else removeFaceGlow (animateOpacity acc now face DIMMED_FACE_OPACITY 250) face) w2
  { w3 with
    inter := { w3.inter with
      currentlyExpandedCubeName := some cubeName,
      currentlyClickedFace := some clicked },
    selectedCubeName := some cubeName,
    lastSelectionAt := now }

/-- The same-cube different-face branch of `applyFaceSelection`: dim the
old face (first toward the literal 0.2, then re-dimmed to
`DIMMED_FACE_OPACITY` by the sweep over all faces), raise the new face to
full with the emphasis, record the selection, then re-run the scale
tweens of every cube and dim every other face. -/
def applyFaceSwitch (w1 : World) (now : ℚ) (clicked oldFace : Mesh) (cubeName : String) : World :=
  let w2 := removeFaceGlow (animateOpacity w1 now oldFace (20 / 100) 250) oldFace
  let w3 := setFaceGlow (animateOpacity w2 now clicked 1 250) clicked
  let w4 := { w3 with
    selectedCubeName := some cubeName,
    lastSelectionAt := now,
    inter := { w3.inter with currentlyClickedFace := some clicked } }
  let w5 := w4.inter.cubesByName.foldl (fun acc p =>
      if p.1 = cubeName then animateScale acc now p.2 SELECTED_CUBE_SCALE SELECTED_CUBE_BOUNCE 260
      else animateScale acc now p.2 DIMMED_CUBE_SCALE DIMMED_CUBE_BOUNCE 260) w4
  w5.inter.allFaceMeshes.foldl (fun acc face =>
      if face = clicked then acc
      else removeFaceGlow (animateOpacity acc now face DIMMED_FACE_OPACITY 250) face) w5

/-- `applyFaceSelection(clicked, { allowHomeReset, distanceOverride })`:
the selection state machine.  Transition order as in the source: unknown
cube (no-op), structural material (no-op), home reset (only once a
selection exists), same-face debounce then reset, camera tween toward the
solved pose, then face switch within the cube or block switch. -/
def applyFaceSelection (w : World) (now : ℚ) (clicked : Mesh)
    (allowHomeReset : Bool) (distanceOverride : Option ℚ) : World :=
  match findCubeName w.inter.cubesByName clicked with
  | none => w
  | some cubeName =>
    if clicked.matUUIDs.any (fun mu => w.inter.bodyMaterialUUIDs.contains mu) then w
    else if allowHomeReset = true ∧ cubeName = "top_block_5" ∧ w.selectedCubeName.isSome then
      returnToDefault w now
    else if w.selectedCubeName = some cubeName ∧ w.inter.currentlyClickedFace = some clicked then
      if now - w.lastSelectionAt < 500 then w else returnToDefault w now
    else
      let desiredDistance := distanceOverride.getD w.cfg.babylonClickDistance
      let camPreset := w.cfg.getCameraPoseForMesh clicked desiredDistance
      let w1 := animateCameraToPreset w now camPreset 900 (some CLICK_INTERACTION_FOV)
      match w.inter.currentlyClickedFace with
      | some oldFace =>
        if w.selectedCubeName = some cubeName ∧ clicked ≠ oldFace then
          applyFaceSwitch w1 now clicked oldFace cubeName
        else applyBlockSwitch w1 now clicked cubeName
      | none => applyBlockSwitch w1 now clicked cubeName

end Cube

namespace Cube

/-- `isKnownFace(obj)` from `onModelPointerUp`: a mesh whose uuid is among
the registered face mesh uuids and whose parent chain reaches a known
cube.  (Every modelled object is a mesh, so the `obj?.isMesh` test of the
source is identically true here.) -/
def isKnownFace (inter : InteractionRef) (m : Mesh) : Bool :=
  inter.faceMeshUUIDs.contains m.node.uuid && (findCubeName inter.cubesByName m).isSome

/-- One entry of the intersection list delivered with a pointer event
(`e.intersections`, nearest first) or returned by
`raycaster.intersectObjects`. -/
structure Hit where
  object : Mesh
deriving DecidableEq

/-- The fields of the R3F pointer-up event the handler reads.  Nullable
numeric fields (`Number.isFinite` guards in the source) are `Option`s;
`raycastFaceHits` is the result of
`e.raycaster.intersectObjects(allFaceMeshes, false)`, nearest first. -/
structure PointerEventRec where
  pointerType : String
  isPrimary : Bool
  button : Option ℤ
  pointerId : Option ℤ
  timeStamp : ℚ
  clientX : Option ℚ
  clientY : Option ℚ
  intersections : List Hit
  eobject : Mesh
  delta : Option ℚ
  raycastFaceHits : List Hit
deriving DecidableEq

/-- `pointerDownRef.current` at release time. -/
structure PressState where
  active : Bool
  pointerId : Option ℤ
  x : ℚ
  y : ℚ
  downAt : ℚ
  maxFromStart : ℚ
  startAzimuth : Option ℚ
  startPolar : Option ℚ
  startDistance : Option ℚ
deriving DecidableEq

/-- `lastResolvedTapRef.current`. -/
structure LastTap where
  time : ℚ
  x : Option ℚ
  y : Option ℚ
  pointerType : String
  faceUuid : Option ℕ
deriving DecidableEq

/-- Everything `onModelPointerUp` reads besides the event: flags, the
press record, the duplicate-dispatch and duplicate-tap refs, the current
orbit scalars and the interaction tables.  `now` is `performance.now()`
at release. -/
structure GestureEnv where
  isGuidedRunning : Bool
  cameraAnimLock : Bool
  down : PressState
  lastPointerUpTimeStamp : ℚ
  lastPointerUpPointerId : Option ℤ
  lastTap : LastTap
  controlsAz : ℚ
  controlsPol : ℚ
  controlsDist : ℚ
  inter : InteractionRef
  now : ℚ
deriving DecidableEq

/-- Per-pointer-kind drag threshold. -/
def dragThreshold (e : PointerEventRec) : ℚ :=
  if e.pointerType = "touch" then TOUCH_DRAG_THRESHOLD_PX else CLICK_DRAG_THRESHOLD_PX

/-- `Math.hypot(dx, dy) > c`, decided without square roots: the
Euclidean norm exceeds `c` iff `c < 0` or `c ^ 2 < dx ^ 2 + dy ^ 2`. -/
def hypotGt (dx dy c : ℚ) : Bool :=
  decide (c < 0) || decide (c ^ 2 < dx ^ 2 + dy ^ 2)

/-- `ev.pointerType === "mouse" && typeof ev.button === "number" &&
ev.button !== 0`. -/
def mouseSecondaryButton (e : PointerEventRec) : Bool :=
  e.pointerType == "mouse" &&
    (match e.button with
     | some b => b != 0
     | none => false)

/-- The dispatch is not the one for the nearest intersection
(`e.intersections.length > 0 && e.intersections[0]?.object !== e.object`):
R3F invokes the handler once per hit object and only the nearest one is
processed. -/
def notNearestDispatch (e : PointerEventRec) : Bool :=
  match e.intersections with
  | [] => false
  | h :: _ => h.object != e.eobject

/-- Duplicate callback carrying the same native event (same `timeStamp`
and `pointerId` as the previously handled pointer-up). -/
def duplicateNativeEvent (env : GestureEnv) (e : PointerEventRec) : Bool :=
  decide (0 ≤ e.timeStamp) && env.lastPointerUpTimeStamp == e.timeStamp &&
    env.lastPointerUpPointerId == e.pointerId

/-- The pixel drag check: with finite coordinates and a matching pointer
identity, `Math.max(hypot(release - press), maxFromStart)` exceeds the
threshold. -/
def dragExceeded (down : PressState) (e : PointerEventRec) (thr : ℚ) : Bool :=
  match e.clientX, e.clientY with
  | some cx, some cy =>
      (down.pointerId == none || e.pointerId == none || down.pointerId == e.pointerId) &&
      (hypotGt (cx - down.x) (cy - down.y) thr || decide (down.maxFromStart > thr))
  | _, _ => false

/-- The orbit movement check: the camera angles or distance moved by more
than a small epsilon between press and release (a camera drag, not a
tap). -/
def orbitMoved (env : GestureEnv) : Bool :=
  match env.down.startAzimuth, env.down.startPolar, env.down.startDistance with
  | some sAz, some sPol, some sDist =>
      decide (|shortestAngleDelta sAz env.controlsAz| > 1 / 100) ||
      decide (|env.controlsPol - sPol| > 1 / 100) ||
      decide (|env.controlsDist - sDist| > 1 / 20)
  | _, _, _ => false

/-- The secondary R3F drag fallback `typeof e.delta === "number" &&
e.delta > dragThreshold`. -/
def deltaExceeded (e : PointerEventRec) (thr : ℚ) : Bool :=
  match e.delta with
  | some d => decide (d > thr)
  | none => false

/-- Duplicate-tap face check against `lastResolvedTapRef`. -/
def sameFaceTap (lastTap : LastTap) (resolved : Mesh) : Bool :=
  match lastTap.faceUuid with
  | some lu => lu == resolved.node.uuid
  | none => false

/-- Duplicate-tap position check: all four coordinates finite and the
release lies within 2 px (`Math.hypot < 2`, decided on squares). -/
def sameSpotTap (lastTap : LastTap) (e : PointerEventRec) : Bool :=
  match lastTap.x, lastTap.y, e.clientX, e.clientY with
  | some lx, some ly, some cx, some cy =>
      decide ((cx - lx) ^ 2 + (cy - ly) ^ 2 < 2 ^ 2)
  | _, _, _, _ => false

/-- `onModelPointerUp`: the gesture classifier.  Returns the face handed
to `applyFaceSelection(resolvedFace, { allowHomeReset: true })`, or
`none` when the event is suppressed.  The writes to `lastPointerUpRef`,
`lastResolvedTapRef` and `suppressOrbitSyncUntilRef` only matter across
successive events and are carried by `GestureEnv` on input. -/
def onModelPointerUp (env : GestureEnv) (e : PointerEventRec) : Option Mesh :=
  if env.isGuidedRunning then none
  else if env.cameraAnimLock then none
  else if e.pointerType = "touch" ∧ e.isPrimary = false then none
  else if mouseSecondaryButton e then none
  else if notNearestDispatch e then none
  else if duplicateNativeEvent env e then none
  else if !env.down.active then none
  else if env.now - env.down.downAt < MIN_CLICK_PRESS_MS then none
  else if dragExceeded env.down e (dragThreshold e) then none
  else if orbitMoved env then none
  else if deltaExceeded e (dragThreshold e) then none
  else if env.inter.allFaceMeshes = [] then none
  else
    let clickedFromEvent := e.intersections.find? (fun h => isKnownFace env.inter h.object)
    let clickedHit := clickedFromEvent <|> e.raycastFaceHits.find? (fun h => isKnownFace env.inter h.object)
    let clicked := clickedHit.map (fun h => h.object)
    let fallback := if isKnownFace env.inter e.eobject then some e.eobject else none
    match clicked <|> fallback with
    | none => none
    | some resolvedFace =>
      if sameFaceTap env.lastTap resolvedFace && sameSpotTap env.lastTap e &&
          decide (env.now - env.lastTap.time < 320) then none
      else if e.pointerType == "mouse" && env.lastTap.pointerType == "touch" &&
          decide (env.now - env.lastTap.time < 800) then none
      else some resolvedFace

/-- All suppression guards of `onModelPointerUp` that precede hit
resolution pass, and the release is not a duplicate of the previous
resolved tap (at least 800 ms later, so neither duplicate-tap window
applies).  Mirrors the guard conditions one by one. -/
def TapGuardsPass (env : GestureEnv) (e : PointerEventRec) : Prop :=
  env.isGuidedRunning = false ∧
  env.cameraAnimLock = false ∧
  ¬(e.pointerType = "touch" ∧ e.isPrimary = false) ∧
  mouseSecondaryButton e = false ∧
  duplicateNativeEvent env e = false ∧
  env.down.active = true ∧
  ¬(env.now - env.down.downAt < MIN_CLICK_PRESS_MS) ∧
  dragExceeded env.down e (dragThreshold e) = false ∧
  orbitMoved env = false ∧
  deltaExceeded e (dragThreshold e) = false ∧
  env.inter.allFaceMeshes ≠ [] ∧
  ¬(env.now - env.lastTap.time < 800)

/-- The C10 consistency invariant: either no selection at all, or the
selected cube name is a key of `cubesByName` and the recorded face
carries the registered cube node on its parent chain. -/
def SelectionConsistent (w : World) : Prop :=
  (w.selectedCubeName = none ∧ w.inter.currentlyClickedFace = none) ∨
  (∃ n c m, w.selectedCubeName = some n ∧ alookup w.inter.cubesByName n = some c ∧
    w.inter.currentlyClickedFace = some m ∧ c ∈ m.chain)

/-- Scene well-formedness for one mesh: whenever a node of its parent
chain carries a name registered in `cubesByName`, the registered node is
that chain node itself (names listed in `cubesByName` identify their
object uniquely, which is what `getObjectByName` established at setup). -/
def NamesFaithful (cubes : List (String × Node)) (m : Mesh) : Prop :=
  ∀ nd ∈ m.chain, alookup cubes nd.name = none ∨ alookup cubes nd.name = some nd

end Cube

namespace CubeR

/-- Truncation toward zero on `ℝ` (the JS `%` rounding). -/
noncomputable def jsTrunc (x : ℝ) : ℝ := if 0 ≤ x then (⌊x⌋ : ℝ) else (⌈x⌉ : ℝ)

/-- The JS remainder `x % y` over `ℝ`. -/
noncomputable def jsMod (x y : ℝ) : ℝ := x - y * jsTrunc (x / y)

/-- `normalizeAngle0ToTau` over `ℝ` with the mathematical pi. -/
noncomputable def normalizeAngle0ToTau (angle : ℝ) : ℝ :=
  let tau := Real.pi * 2
  jsMod (jsMod angle tau + tau) tau

/-- `normalizeAngleMinusPiToPi` over `ℝ`. -/
noncomputable def normalizeAngleMinusPiToPi (angle : ℝ) : ℝ :=
  let tau := Real.pi * 2
  jsMod (jsMod (angle + Real.pi) tau + tau) tau - Real.pi

/-- `shortestAngleDelta` over `ℝ`. -/
noncomputable def shortestAngleDelta (fromAngle toAngle : ℝ) : ℝ :=
  let tau := Real.pi * 2
  let a := normalizeAngle0ToTau fromAngle
  let b := normalizeAngle0ToTau toAngle
  let d := b - a
  let d1 := if d > Real.pi then d - tau else d
  if d1 < -Real.pi then d1 + tau else d1

/-- A real 3D vector (world positions, look-at targets). -/
structure Vec3R where
  x : ℝ
  y : ℝ
  z : ℝ

/-- `a.sub(b)` componentwise. -/
noncomputable def Vec3R.sub (a b : Vec3R) : Vec3R := ⟨a.x - b.x, a.y - b.y, a.z - b.z⟩

/-- `v.lengthSq()`. -/
noncomputable def Vec3R.lengthSq (v : Vec3R) : ℝ := v.x * v.x + v.y * v.y + v.z * v.z

/-- `clamp` over `ℝ`. -/
noncomputable def clamp (v lo hi : ℝ) : ℝ := max lo (min hi v)

/-- `Math.atan2(y, x)` on reals (the NaN cases of the double version
cannot arise: both arguments are real numbers). -/
noncomputable def atan2 (y x : ℝ) : ℝ :=
  if 0 < x then Real.arctan (y / x)
  else if x < 0 ∧ 0 ≤ y then Real.arctan (y / x) + Real.pi
  else if x < 0 ∧ y < 0 then Real.arctan (y / x) - Real.pi
  else if x = 0 ∧ 0 < y then Real.pi / 2
  else if x = 0 ∧ y < 0 then -(Real.pi / 2)
  else 0

/-- An orbit pose over `ℝ`. -/
structure PoseR where
  azimuth : ℝ
  polar : ℝ
  distance : ℝ

/-- The Leva values and refs read by the pose solver. -/
structure ConfigR where
  lockTargetToModelCenter : Bool
  cameraProfileBabylonOriginal : Bool
  babylonClickDistance : ℝ
  cameraDistance : ℝ
  presetYawOffset : ℝ
  presetPolarOffset : ℝ
  modelCenter : Vec3R
  controlsTarget : Option Vec3R

/-- `getCameraPoseForFace(name)`: the name-based fallback table keyed by
the second character of the face name, with the yaw/polar trim offsets
applied. -/
noncomputable def getCameraPoseForFace (cfg : ConfigR) (name : String) : PoseR :=
  let second := (name.toList.drop 1).head?
  let ab : ℝ × ℝ :=
    if second = some '1' then (Real.pi / (-(27 / 10)), 15628 / 10000)
    else if second = some '2' then (Real.pi / (-(11 / 10)), 15096 / 10000)
    else if second = some '3' then (2 * Real.pi / (32 / 10), 15352 / 10000)
    else if second = some '4' then (Real.pi / 7, 15638 / 10000)
    else if second = some 'b' then (3 / 2 * Real.pi - 2 / 10, Real.pi - 5 / 10)
    else (3 / 2 * Real.pi + 3 / 10, 3 / 10)
  let azimuth := normalizeAngleMinusPiToPi (Real.pi / 2 - ab.1 + cfg.presetYawOffset)
  let polar := ab.2 + cfg.presetPolarOffset
  let distance :=
    if cfg.cameraProfileBabylonOriginal then cfg.babylonClickDistance else cfg.cameraDistance
  ⟨azimuth, polar, distance⟩

/-- `getCameraPoseForMesh(mesh, distanceOverride)`: choose the look-at
target, compute `dir = worldPosition - target`; if `dir` is degenerate
(`lengthSq < 1e-8`) fall back to the name-based pose, else normalize,
scale to the desired distance, convert to spherical angles
(`Spherical.setFromVector3`: `theta = atan2(x, z)`,
`phi = acos(clamp(y / radius, -1, 1))`), apply the trim offsets and clamp
the polar angle into `[0.001, pi - 0.001]`. -/
noncomputable def getCameraPoseForMesh (cfg : ConfigR) (meshName : String) (worldPos : Vec3R)
    (distanceOverride : Option ℝ) : PoseR :=
  let forceCenter := cfg.lockTargetToModelCenter || cfg.cameraProfileBabylonOriginal
  let target :=
    if forceCenter then cfg.modelCenter
    else
      match cfg.controlsTarget with
      | some t => t
      | none => cfg.modelCenter
  let distance :=
    match distanceOverride with
    | some d => d
    | none =>
        if cfg.cameraProfileBabylonOriginal then cfg.babylonClickDistance else cfg.cameraDistance
  let dir := Vec3R.sub worldPos target
  if dir.lengthSq < 1 / 100000000 then getCameraPoseForFace cfg meshName
  else
    let len := Real.sqrt dir.lengthSq
    let scaled : Vec3R := ⟨dir.x / len * distance, dir.y / len * distance, dir.z / len * distance⟩
    let radius := Real.sqrt scaled.lengthSq
    let theta := if radius = 0 then 0 else atan2 scaled.x scaled.z
    let phi := if radius = 0 then 0 else Real.arccos (clamp (scaled.y / radius) (-1) 1)
    let azimuth := normalizeAngleMinusPiToPi (theta + cfg.presetYawOffset)
    let polar := clamp (phi + cfg.presetPolarOffset) (1 / 1000) (Real.pi - 1 / 1000)
    ⟨azimuth, polar, distance⟩

/-- The look-at target `getCameraPoseForMesh` uses, named for the
statements below. -/
noncomputable def poseTarget (cfg : ConfigR) : Vec3R :=
  if cfg.lockTargetToModelCenter || cfg.cameraProfileBabylonOriginal then cfg.modelCenter
  else
    match cfg.controlsTarget with
    | some t => t
    | none => cfg.modelCenter

end CubeR

namespace Cube

namespace Fix

/-- Concrete scene: the home cube node. -/
def homeNode : Node := ⟨1, "top_block_5"⟩

/-- Concrete scene: a second cube node. -/
def bNode : Node := ⟨2, "block_b"⟩

/-- A face of the home cube. -/
def faceH : Mesh := ⟨⟨10, "face_h"⟩, [homeNode], [100]⟩

/-- First face of cube `block_b`. -/
def faceA : Mesh := ⟨⟨11, "face_a"⟩, [bNode], [101]⟩

/-- Second face of cube `block_b`. -/
def faceB : Mesh := ⟨⟨12, "face_b"⟩, [bNode], [102]⟩

/-- A structural (body material) mesh under the home cube: its material
uuid 50 is in `bodyMaterialUUIDs` and its uuid 20 is not a face uuid. -/
def bodyMesh : Mesh := ⟨⟨20, "body"⟩, [homeNode], [50]⟩

/-- A pose solver stub for the concrete worlds (the machine never
inspects the produced pose). -/
def cfg0 : Config :=
  { cameraFov := 45, babylonClickDistance := 7, lockTargetToModelCenter := false,
    cameraProfileBabylonOriginal := false, cameraModeBabylon := false,
    modelCenter := ⟨0, 0, 0⟩, getCameraPoseForMesh := fun _ _ => ⟨0, 1, 7⟩ }

/-- Concrete camera state. -/
def cam0 : CamState :=
  { az := 0, pol := 1, dist := 10, fov := 45, target := ⟨0, 0, 0⟩,
    minDistance := 0, maxDistance := 100, enabled := true }

/-- Concrete scene values: everything at rest. -/
def scene0 : SceneValues :=
  { faceOpacity := fun _ => 1, cubeScale := fun _ => 1, centerX := 0, centerRotY := 0 }

/-- Concrete interaction tables: two cubes, three faces, one body
material. -/
def inter0 : InteractionRef :=
  { cubesByName := [("top_block_5", homeNode), ("block_b", bNode)],
    allFaceMeshes := [faceH, faceA, faceB],
    faceMeshUUIDs := [10, 11, 12],
    bodyMaterialUUIDs := [50],
    currentlyExpandedCubeName := none,
    currentlyClickedFace := none }

/-- The `Default` world: nothing selected, no tweens in flight. -/
def w0 : World :=
  { anim := ⟨[], [], none, none⟩, scene := scene0, cam := cam0, glow := fun _ => false,
    inter := inter0, selectedCubeName := none, lastSelectionAt := -1,
    defaultPose := ⟨0, 1, 10⟩, cfg := cfg0, cameraAnimLock := false,
    isCameraAnimating := false }

/-- The world in state `Selected(block_b, faceA)`. -/
def wSelA : World :=
  { w0 with
    selectedCubeName := some "block_b",
    inter := { inter0 with
      currentlyClickedFace := some faceA,
      currentlyExpandedCubeName := some "block_b" },
    lastSelectionAt := 0 }

/-- The world in state `Selected(top_block_5, faceH)` (reachable by a
first tap on the home block from `Default`). -/
def wSelH : World :=
  { w0 with
    selectedCubeName := some "top_block_5",
    inter := { inter0 with
      currentlyClickedFace := some faceH,
      currentlyExpandedCubeName := some "top_block_5" },
    lastSelectionAt := 0 }

/-- An in-flight opacity tween (uuid 11), mid-flight at `now = 100`. -/
def twOp : OpacityTween := ⟨1, 0, 0, 250⟩

/-- An in-flight scale tween (uuid 2). -/
def twSc : ScaleTween := ⟨1, 76 / 100, 82 / 100, 0, 260⟩

/-- An in-flight center tween. -/
def twCen : CenterTween := ⟨150, 0, 0, 25, 36 / 100, 0, 1400⟩

/-- An in-flight camera tween. -/
def twCam : CameraTween := ⟨0, 900, 0, 1, 1, 2, 10, 7, ⟨0, 0, 0⟩, false, some 45, some 26⟩

/-- A world with one tween of every kind in flight. -/
def wTw : World :=
  { w0 with anim := ⟨[(11, twOp)], [(2, twSc)], some twCen, some twCam⟩ }

/-- Press state of a clean tap. -/
def press0 : PressState :=
  { active := true, pointerId := some 1, x := 0, y := 0, downAt := 0,
    maxFromStart := 0, startAzimuth := none, startPolar := none,
    startDistance := none }

/-- Last resolved tap long ago. -/
def lastTap0 : LastTap :=
  { time := 0, x := some 0, y := some 0, pointerType := "mouse", faceUuid := some 11 }

/-- Gesture environment of a clean tap at `now = 1000`. -/
def env0 : GestureEnv :=
  { isGuidedRunning := false, cameraAnimLock := false, down := press0,
    lastPointerUpTimeStamp := -1, lastPointerUpPointerId := none,
    lastTap := lastTap0, controlsAz := 0, controlsPol := 1, controlsDist := 10,
    inter := inter0, now := 1000 }

/-- A pointer-up event whose nearest intersection is the face itself. -/
def evFace : PointerEventRec :=
  { pointerType := "mouse", isPrimary := true, button := some 0, pointerId := some 1,
    timeStamp := 500, clientX := none, clientY := none,
    intersections := [⟨faceA⟩], eobject := faceA, delta := none,
    raycastFaceHits := [⟨faceA⟩] }

/-- A pointer-up event whose nearest intersection is the structural
`bodyMesh` with the home face behind it along the same ray. -/
def evOccluded : PointerEventRec :=
  { pointerType := "mouse", isPrimary := true, button := some 0, pointerId := some 1,
    timeStamp := 500, clientX := none, clientY := none,
    intersections := [⟨bodyMesh⟩, ⟨faceH⟩], eobject := bodyMesh, delta := none,
    raycastFaceHits := [⟨faceH⟩] }

end Fix

end Cube

namespace CubeR

namespace FixR

/-- Concrete pose-solver configuration: free target (no lock, original
profile off), no trim offsets, target resolved from the model center. -/
noncomputable def cfgR : ConfigR :=
  { lockTargetToModelCenter := false, cameraProfileBabylonOriginal := false,
    babylonClickDistance := 7, cameraDistance := 25, presetYawOffset := 0,
    presetPolarOffset := 0, modelCenter := ⟨0, 0, 0⟩, controlsTarget := none }

end FixR

end CubeR

namespace Cube

theorem alookup_mapSet_self {κ α : Type} [DecidableEq κ] (m : List (κ × α)) (k : κ) (v : α) :
    alookup (mapSet m k v) k = some v := by
  induction m with
  | nil => simp [mapSet, alookup]
  | cons p rest ih =>
    obtain ⟨k', v'⟩ := p
    by_cases h : k' = k
    · simp [mapSet, alookup, h]
    · simp [mapSet, alookup, h, ih]

theorem alookup_mapSet_ne {κ α : Type} [DecidableEq κ] (m : List (κ × α)) (k k' : κ) (v : α)
    (h : k ≠ k') : alookup (mapSet m k v) k' = alookup m k' := by
  induction m with
  | nil => simp [mapSet, alookup, h]
  | cons p rest ih =>
    obtain ⟨ka, va⟩ := p
    by_cases hk : ka = k
    · subst hk
      simp [mapSet, alookup, h]
    · simp [mapSet, alookup, hk, ih]

theorem alookup_mem {κ α : Type} [DecidableEq κ] {m : List (κ × α)} {k : κ} {v : α}
    (h : alookup m k = some v) : (k, v) ∈ m := by
  induction m with
  | nil => simp [alookup] at h
  | cons p rest ih =>
    obtain ⟨k', v'⟩ := p
    by_cases hk : k' = k
    · subst hk
      simp only [alookup, if_true, eq_self_iff_true, if_pos, Option.some.injEq] at h
      rw [show v = v' from h.symm]
      exact List.mem_cons_self _ _
    · simp only [alookup, if_neg hk] at h
      exact List.mem_cons_of_mem _ (ih h)

theorem alookup_foldl_mapSet_notouch {κ α β : Type} [DecidableEq κ]
    (l : List β) (key : β → κ) (val : β → α) (k : κ) :
    ∀ m0 : List (κ × α), (∀ x ∈ l, key x ≠ k) →
      alookup (l.foldl (fun m x => mapSet m (key x) (val x)) m0) k = alookup m0 k := by
  induction l with
  | nil => intro m0 _; rfl
  | cons x rest ih =>
    intro m0 h
    simp only [List.foldl_cons]
    rw [ih _ (fun y hy => h y (List.mem_cons_of_mem _ hy))]
    exact alookup_mapSet_ne _ _ _ _ (h x (List.mem_cons_self x rest))

theorem alookup_foldl_mapSet_inj {κ α β : Type} [DecidableEq κ] [DecidableEq β]
    (l : List β) (key : β → κ) (val : β → α) (b : β) :
    ∀ m0 : List (κ × α), b ∈ l → (∀ x ∈ l, key x = key b → x = b) →
      alookup (l.foldl (fun m x => mapSet m (key x) (val x)) m0) (key b) = some (val b) := by
  induction l with
  | nil => intro m0 hb _; cases hb
  | cons x rest ih =>
    intro m0 hb hinj
    simp only [List.foldl_cons]
    by_cases hxb : x = b
    · subst hxb
      by_cases hmem : x ∈ rest
      · exact ih _ hmem (fun y hy hk => hinj y (List.mem_cons_of_mem _ hy) hk)
      · have hrest : ∀ y ∈ rest, key y ≠ key x := by
          intro y hy hk
          exact hmem ((hinj y (List.mem_cons_of_mem _ hy) hk) ▸ hy)
        rw [alookup_foldl_mapSet_notouch _ _ _ _ _ hrest, alookup_mapSet_self]
    · have hbrest : b ∈ rest := by
        rcases List.mem_cons.mp hb with h | h
        · exact absurd h.symm hxb
        · exact h
      exact ih _ hbrest (fun y hy hk => hinj y (List.mem_cons_of_mem _ hy) hk)

theorem alookup_foldl_mapSet_pres {κ α β : Type} [DecidableEq κ]
    (l : List β) (key : β → κ) (val : β → α) (k : κ) (P : α → Prop) :
    ∀ m0 : List (κ × α), (∀ x ∈ l, P (val x)) → (∃ v, alookup m0 k = some v ∧ P v) →
      ∃ v, alookup (l.foldl (fun m x => mapSet m (key x) (val x)) m0) k = some v ∧ P v := by
  induction l with
  | nil => intro m0 _ h0; exact h0
  | cons x rest ih =>
    intro m0 hP h0
    simp only [List.foldl_cons]
    refine ih _ (fun y hy => hP y (List.mem_cons_of_mem _ hy)) ?_
    by_cases hk : key x = k
    · subst hk
      exact ⟨val x, alookup_mapSet_self _ _ _, hP x (List.mem_cons_self x rest)⟩
    · rw [alookup_mapSet_ne _ _ _ _ hk]
      exact h0

theorem alookup_foldl_mapSet_uniform {κ α β : Type} [DecidableEq κ]
    (l : List β) (key : β → κ) (val : β → α) (b : β) (P : α → Prop) :
    ∀ m0 : List (κ × α), (∀ x ∈ l, P (val x)) → b ∈ l →
      ∃ v, alookup (l.foldl (fun m x => mapSet m (key x) (val x)) m0) (key b) = some v ∧ P v := by
  induction l with
  | nil => intro m0 _ hb; cases hb
  | cons x rest ih =>
    intro m0 hP hb
    simp only [List.foldl_cons]
    by_cases hbx : b = x
    · subst hbx
      refine alookup_foldl_mapSet_pres _ _ _ _ P _ (fun y hy => hP y (List.mem_cons_of_mem _ hy)) ?_
      exact ⟨val b, alookup_mapSet_self _ _ _, hP b (List.mem_cons_self b rest)⟩
    · have hbrest : b ∈ rest := by
        rcases List.mem_cons.mp hb with h | h
        · exact absurd h hbx
        · exact h
      exact ih _ (fun y hy => hP y (List.mem_cons_of_mem _ hy)) hbrest

theorem foldl_update_notouch {κ γ β : Type} [DecidableEq κ]
    (l : List β) (key : β → κ) (val : β → γ) (k : κ) :
    ∀ g0 : κ → γ, (∀ x ∈ l, key x ≠ k) →
      (l.foldl (fun g x => Function.update g (key x) (val x)) g0) k = g0 k := by
  induction l with
  | nil => intro g0 _; rfl
  | cons x rest ih =>
    intro g0 h
    simp only [List.foldl_cons]
    rw [ih _ (fun y hy => h y (List.mem_cons_of_mem _ hy))]
    exact Function.update_noteq (Ne.symm (h x (List.mem_cons_self x rest))) _ _

theorem foldl_update_inj {κ γ β : Type} [DecidableEq κ] [DecidableEq β]
    (l : List β) (key : β → κ) (val : β → γ) (b : β) :
    ∀ g0 : κ → γ, b ∈ l → (∀ x ∈ l, key x = key b → x = b) →
      (l.foldl (fun g x => Function.update g (key x) (val x)) g0) (key b) = val b := by
  induction l with
  | nil => intro g0 hb _; cases hb
  | cons x rest ih =>
    intro g0 hb hinj
    simp only [List.foldl_cons]
    by_cases hxb : x = b
    · subst hxb
      by_cases hmem : x ∈ rest
      · exact ih _ hmem (fun y hy hk => hinj y (List.mem_cons_of_mem _ hy) hk)
      · have hrest : ∀ y ∈ rest, key y ≠ key x := by
          intro y hy hk
          exact hmem ((hinj y (List.mem_cons_of_mem _ hy) hk) ▸ hy)
        rw [foldl_update_notouch _ _ _ _ _ hrest, Function.update_same]
    · have hbrest : b ∈ rest := by
        rcases List.mem_cons.mp hb with h | h
        · exact absurd h.symm hxb
        · exact h
      exact ih _ hbrest (fun y hy hk => hinj y (List.mem_cons_of_mem _ hy) hk)

theorem foldl_update_pres {κ γ β : Type} [DecidableEq κ]
    (l : List β) (key : β → κ) (val : β → γ) (k : κ) (c : γ) :
    ∀ g0 : κ → γ, (∀ x ∈ l, val x = c) → g0 k = c →
      (l.foldl (fun g x => Function.update g (key x) (val x)) g0) k = c := by
  induction l with
  | nil => intro g0 _ h0; exact h0
  | cons x rest ih =>
    intro g0 hval h0
    simp only [List.foldl_cons]
    refine ih _ (fun y hy => hval y (List.mem_cons_of_mem _ hy)) ?_
    by_cases hk : key x = k
    · subst hk
      rw [Function.update_same]
      exact hval x (List.mem_cons_self x rest)
    · rw [Function.update_noteq (Ne.symm hk)]
      exact h0

theorem foldl_update_uniform {κ γ β : Type} [DecidableEq κ]
    (l : List β) (key : β → κ) (val : β → γ) (b : β) (c : γ) :
    ∀ g0 : κ → γ, (∀ x ∈ l, val x = c) → b ∈ l →
      (l.foldl (fun g x => Function.update g (key x) (val x)) g0) (key b) = c := by
  induction l with
  | nil => intro g0 _ hb; cases hb
  | cons x rest ih =>
    intro g0 hval hb
    simp only [List.foldl_cons]
    by_cases hbx : b = x
    · subst hbx
      refine foldl_update_pres _ _ _ _ _ _ (fun y hy => hval y (List.mem_cons_of_mem _ hy)) ?_
      rw [Function.update_same]
      exact hval b (List.mem_cons_self b rest)
    · have hbrest : b ∈ rest := by
        rcases List.mem_cons.mp hb with h | h
        · exact absurd h hbx
        · exact h
      exact ih _ (fun y hy => hval y (List.mem_cons_of_mem _ hy)) hbrest

theorem foldl_update_lookup {κ γ τ : Type} [DecidableEq κ]
    (m : List (κ × τ)) (g : τ → γ) (k : κ) (v : τ) :
    ∀ f0 : κ → γ, alookup m k = some v → (m.map Prod.fst).Nodup →
      (m.foldl (fun f p => Function.update f p.1 (g p.2)) f0) k = g v := by
  induction m with
  | nil => intro f0 h _; simp [alookup] at h
  | cons p rest ih =>
    intro f0 h hnd
    obtain ⟨k', v'⟩ := p
    simp only [List.map_cons, List.nodup_cons] at hnd
    by_cases hk : k' = k
    · subst hk
      simp only [alookup, if_true, eq_self_iff_true, if_pos, Option.some.injEq] at h
      rw [show v = v' from h.symm]
      simp only [List.foldl_cons]
      have hrest : ∀ x ∈ rest, x.1 ≠ k' := by
        intro x hx hkx
        exact hnd.1 (hkx ▸ List.mem_map_of_mem Prod.fst hx)
      rw [foldl_update_notouch rest Prod.fst (fun p => g p.2) _ _ hrest, Function.update_same]
    · simp only [alookup, if_neg hk] at h
      simp only [List.foldl_cons]
      rw [ih _ h hnd.2]

end Cube

namespace Cube

theorem alookup_foldl_mapSet_skip_notouch {κ α β : Type} [DecidableEq κ]
    (l : List β) (key : β → κ) (val : β → α) (skip : β → Prop) [DecidablePred skip] (k : κ) :
    ∀ m0 : List (κ × α), (∀ x ∈ l, ¬skip x → key x ≠ k) →
      alookup (l.foldl (fun m x => if skip x then m else mapSet m (key x) (val x)) m0) k =
        alookup m0 k := by
  induction l with
  | nil => intro m0 _; rfl
  | cons x rest ih =>
    intro m0 h
    simp only [List.foldl_cons]
    rw [ih _ (fun y hy => h y (List.mem_cons_of_mem _ hy))]
    by_cases hs : skip x
    · rw [if_pos hs]
    · rw [if_neg hs]
      exact alookup_mapSet_ne _ _ _ _ (h x (List.mem_cons_self x rest) hs)

theorem alookup_foldl_mapSet_skip_inj {κ α β : Type} [DecidableEq κ] [DecidableEq β]
    (l : List β) (key : β → κ) (val : β → α) (skip : β → Prop) [DecidablePred skip] (b : β) :
    ∀ m0 : List (κ × α), b ∈ l → ¬skip b → (∀ x ∈ l, key x = key b → x = b) →
      alookup (l.foldl (fun m x => if skip x then m else mapSet m (key x) (val x)) m0) (key b) =
        some (val b) := by
  induction l with
  | nil => intro m0 hb _ _; cases hb
  | cons x rest ih =>
    intro m0 hb hsb hinj
    simp only [List.foldl_cons]
    by_cases hxb : x = b
    · subst hxb
      by_cases hmem : x ∈ rest
      · exact ih _ hmem hsb (fun y hy hk => hinj y (List.mem_cons_of_mem _ hy) hk)
      · have hrest : ∀ y ∈ rest, ¬skip y → key y ≠ key x := by
          intro y hy _ hk
          exact hmem ((hinj y (List.mem_cons_of_mem _ hy) hk) ▸ hy)
        rw [alookup_foldl_mapSet_skip_notouch _ _ _ _ _ _ hrest, if_neg hsb, alookup_mapSet_self]
    · have hbrest : b ∈ rest := by
        rcases List.mem_cons.mp hb with h | h
        · exact absurd h.symm hxb
        · exact h
      exact ih _ hbrest hsb (fun y hy hk => hinj y (List.mem_cons_of_mem _ hy) hk)

theorem foldl_update_skip_notouch {κ γ β : Type} [DecidableEq κ]
    (l : List β) (key : β → κ) (val : β → γ) (skip : β → Prop) [DecidablePred skip] (k : κ) :
    ∀ g0 : κ → γ, (∀ x ∈ l, ¬skip x → key x ≠ k) →
      (l.foldl (fun g x => if skip x then g else Function.update g (key x) (val x)) g0) k = g0 k := by
  induction l with
  | nil => intro g0 _; rfl
  | cons x rest ih =>
    intro g0 h
    simp only [List.foldl_cons]
    rw [ih _ (fun y hy => h y (List.mem_cons_of_mem _ hy))]
    by_cases hs : skip x
    · rw [if_pos hs]
    · rw [if_neg hs]
      exact Function.update_noteq (Ne.symm (h x (List.mem_cons_self x rest) hs)) _ _

theorem foldl_update_skip_inj {κ γ β : Type} [DecidableEq κ] [DecidableEq β]
    (l : List β) (key : β → κ) (val : β → γ) (skip : β → Prop) [DecidablePred skip] (b : β) :
    ∀ g0 : κ → γ, b ∈ l → ¬skip b → (∀ x ∈ l, key x = key b → x = b) →
      (l.foldl (fun g x => if skip x then g else Function.update g (key x) (val x)) g0) (key b) =
        val b := by
  induction l with
  | nil => intro g0 hb _ _; cases hb
  | cons x rest ih =>
    intro g0 hb hsb hinj
    simp only [List.foldl_cons]
    by_cases hxb : x = b
    · subst hxb
      by_cases hmem : x ∈ rest
      · exact ih _ hmem hsb (fun y hy hk => hinj y (List.mem_cons_of_mem _ hy) hk)
      · have hrest : ∀ y ∈ rest, ¬skip y → key y ≠ key x := by
          intro y hy _ hk
          exact hmem ((hinj y (List.mem_cons_of_mem _ hy) hk) ▸ hy)
        rw [foldl_update_skip_notouch _ _ _ _ _ _ hrest, if_neg hsb, Function.update_same]
    · have hbrest : b ∈ rest := by
        rcases List.mem_cons.mp hb with h | h
        · exact absurd h.symm hxb
        · exact h
      exact ih _ hbrest hsb (fun y hy hk => hinj y (List.mem_cons_of_mem _ hy) hk)

theorem foldl_resetScale_eq (l : List (String × Node)) (now : ℚ) :
    ∀ w : World, l.foldl (fun acc p => animateScale acc now p.2 1 (80 / 100) 260) w =
      { w with anim := { w.anim with
          scale := l.foldl
            (fun m p => mapSet m p.2.uuid
              { fromVal := w.scene.cubeScale p.2.uuid, bounce := 80 / 100, toVal := 1,
                t0 := now, dur := 260 }) w.anim.scale } } := by
  induction l with
  | nil => intro w; rfl
  | cons p rest ih =>
    intro w
    simp only [List.foldl_cons]
    rw [ih]
    rfl

theorem foldl_switchScale_eq (l : List (String × Node)) (now : ℚ) (cubeName : String) :
    ∀ w : World, l.foldl (fun acc p =>
        if p.1 = cubeName then animateScale acc now p.2 SELECTED_CUBE_SCALE SELECTED_CUBE_BOUNCE 260
        else animateScale acc now p.2 DIMMED_CUBE_SCALE DIMMED_CUBE_BOUNCE 260) w =
      { w with anim := { w.anim with
          scale := l.foldl
            (fun m p => mapSet m p.2.uuid
              { fromVal := w.scene.cubeScale p.2.uuid,
                bounce := if p.1 = cubeName then SELECTED_CUBE_BOUNCE else DIMMED_CUBE_BOUNCE,
                toVal := if p.1 = cubeName then SELECTED_CUBE_SCALE else DIMMED_CUBE_SCALE,
                t0 := now, dur := 260 }) w.anim.scale } } := by
  induction l with
  | nil => intro w; rfl
  | cons p rest ih =>
    intro w
    simp only [List.foldl_cons]
    by_cases hp : p.1 = cubeName
    · simp only [if_pos hp]
      rw [ih]
      rfl
    · simp only [if_neg hp]
      rw [ih]
      rfl

theorem foldl_resetFaces_eq (l : List Mesh) (now : ℚ) :
    ∀ w : World,
      l.foldl (fun acc face => removeFaceGlow (animateOpacity acc now face 1 250) face) w =
      { w with
        anim := { w.anim with
          opacity := l.foldl
            (fun m face => mapSet m face.node.uuid
              { fromVal := w.scene.faceOpacity face.node.uuid, toVal := 1, t0 := now, dur := 250 })
            w.anim.opacity },
        glow := l.foldl (fun g face => Function.update g face.node.uuid false) w.glow } := by
  induction l with
  | nil => intro w; rfl
  | cons f rest ih =>
    intro w
    simp only [List.foldl_cons]
    rw [ih]
    rfl

theorem foldl_blockFaces_eq (l : List Mesh) (now : ℚ) (clicked : Mesh) :
    ∀ w : World,
      l.foldl (fun acc face =>
        if face = clicked then setFaceGlow (animateOpacity acc now face 1 250) face
        else removeFaceGlow (animateOpacity acc now face DIMMED_FACE_OPACITY 250) face) w =
      { w with
        anim := { w.anim with
          opacity := l.foldl
            (fun m face => mapSet m face.node.uuid
              { fromVal := w.scene.faceOpacity face.node.uuid,
                toVal := if face = clicked then 1 else DIMMED_FACE_OPACITY,
                t0 := now, dur := 250 })
            w.anim.opacity },
        glow := l.foldl
          (fun g face => Function.update g face.node.uuid (decide (face = clicked))) w.glow } := by
  induction l with
  | nil => intro w; rfl
  | cons f rest ih =>
    intro w
    simp only [List.foldl_cons]
    by_cases hf : f = clicked
    · simp only [if_pos hf, decide_eq_true_eq, hf]
      rw [ih]
      simp only [decide_True]
      rfl
    · simp only [if_neg hf]
      rw [ih]
      simp only [decide_eq_false hf]
      rfl

theorem foldl_faceSwitchFaces_eq (l : List Mesh) (now : ℚ) (clicked : Mesh) :
    ∀ w : World,
      l.foldl (fun acc face =>
        if face = clicked then acc
        else removeFaceGlow (animateOpacity acc now face DIMMED_FACE_OPACITY 250) face) w =
      { w with
        anim := { w.anim with
          opacity := l.foldl
            (fun m face =>
              if face = clicked then m
              else mapSet m face.node.uuid
                { fromVal := w.scene.faceOpacity face.node.uuid,
                  toVal := DIMMED_FACE_OPACITY, t0 := now, dur := 250 })
            w.anim.opacity },
        glow := l.foldl
          (fun g face =>
            if face = clicked then g else Function.update g face.node.uuid false) w.glow } := by
  induction l with
  | nil => intro w; rfl
  | cons f rest ih =>
    intro w
    simp only [List.foldl_cons]
    by_cases hf : f = clicked
    · simp only [if_pos hf]
      rw [ih]
    · simp only [if_neg hf]
      rw [ih]
      rfl

end Cube

namespace Cube

theorem resetAllCubes_eq (w : World) (now : ℚ) :
    resetAllCubes w now =
      { w with
        anim := { w.anim with
          opacity := w.inter.allFaceMeshes.foldl
            (fun m face => mapSet m face.node.uuid
              { fromVal := w.scene.faceOpacity face.node.uuid, toVal := 1, t0 := now, dur := 250 })
            w.anim.opacity,
          scale := w.inter.cubesByName.foldl
            (fun m p => mapSet m p.2.uuid
              { fromVal := w.scene.cubeScale p.2.uuid, bounce := 80 / 100, toVal := 1,
                t0 := now, dur := 260 }) w.anim.scale },
        glow := w.inter.allFaceMeshes.foldl
          (fun g face => Function.update g face.node.uuid false) w.glow } := by
  unfold resetAllCubes
  rw [foldl_resetScale_eq, foldl_resetFaces_eq]

theorem applyBlockSwitch_eq (w1 : World) (now : ℚ) (clicked : Mesh) (cubeName : String) :
    applyBlockSwitch w1 now clicked cubeName =
      { w1 with
        anim := { w1.anim with
          opacity := w1.inter.allFaceMeshes.foldl
            (fun m face => mapSet m face.node.uuid
              { fromVal := w1.scene.faceOpacity face.node.uuid,
                toVal := if face = clicked then 1 else DIMMED_FACE_OPACITY,
                t0 := now, dur := 250 })
            w1.anim.opacity,
          scale := w1.inter.cubesByName.foldl
            (fun m p => mapSet m p.2.uuid
              { fromVal := w1.scene.cubeScale p.2.uuid,
                bounce := if p.1 = cubeName then SELECTED_CUBE_BOUNCE else DIMMED_CUBE_BOUNCE,
                toVal := if p.1 = cubeName then SELECTED_CUBE_SCALE else DIMMED_CUBE_SCALE,
                t0 := now, dur := 260 }) w1.anim.scale },
        glow := w1.inter.allFaceMeshes.foldl
          (fun g face => Function.update g face.node.uuid (decide (face = clicked))) w1.glow,
        inter := { w1.inter with
          currentlyExpandedCubeName := some cubeName,
          currentlyClickedFace := some clicked },
        selectedCubeName := some cubeName,
        lastSelectionAt := now } := by
  unfold applyBlockSwitch
  rw [foldl_switchScale_eq]
  dsimp only
  rw [foldl_blockFaces_eq]

theorem applyFaceSwitch_eq (w1 : World) (now : ℚ) (clicked oldFace : Mesh) (cubeName : String) :
    applyFaceSwitch w1 now clicked oldFace cubeName =
      { w1 with
        anim := { w1.anim with
          opacity := w1.inter.allFaceMeshes.foldl
            (fun m face =>
              if face = clicked then m
              else mapSet m face.node.uuid
                { fromVal := w1.scene.faceOpacity face.node.uuid,
                  toVal := DIMMED_FACE_OPACITY, t0 := now, dur := 250 })
            (mapSet (mapSet w1.anim.opacity oldFace.node.uuid
              { fromVal := w1.scene.faceOpacity oldFace.node.uuid, toVal := 20 / 100,
                t0 := now, dur := 250 }) clicked.node.uuid
              { fromVal := w1.scene.faceOpacity clicked.node.uuid, toVal := 1,
                t0 := now, dur := 250 }),
          scale := w1.inter.cubesByName.foldl
            (fun m p => mapSet m p.2.uuid
              { fromVal := w1.scene.cubeScale p.2.uuid,
                bounce := if p.1 = cubeName then SELECTED_CUBE_BOUNCE else DIMMED_CUBE_BOUNCE,
                toVal := if p.1 = cubeName then SELECTED_CUBE_SCALE else DIMMED_CUBE_SCALE,
                t0 := now, dur := 260 }) w1.anim.scale },
        glow := w1.inter.allFaceMeshes.foldl
          (fun g face =>
            if face = clicked then g else Function.update g face.node.uuid false)
          (Function.update (Function.update w1.glow oldFace.node.uuid false)
            clicked.node.uuid true),
        inter := { w1.inter with currentlyClickedFace := some clicked },
        selectedCubeName := some cubeName,
        lastSelectionAt := now } := by
  unfold applyFaceSwitch
  dsimp only
  rw [foldl_switchScale_eq]
  dsimp only
  rw [foldl_faceSwitchFaces_eq]
  rfl

theorem easeInOutCubic_zero : easeInOutCubic 0 = 0 := by
  norm_num [easeInOutCubic]

theorem easeInOutCubic_one : easeInOutCubic 1 = 1 := by
  norm_num [easeInOutCubic]

theorem easeOutCubic_zero : easeOutCubic 0 = 0 := by
  norm_num [easeOutCubic]

theorem easeOutCubic_one : easeOutCubic 1 = 1 := by
  norm_num [easeOutCubic]

theorem easeOutBack_zero (a : ℚ) : easeOutBack 0 a = 0 := by
  simp only [easeOutBack]
  ring

theorem easeOutBack_one (a : ℚ) : easeOutBack 1 a = 1 := by
  simp only [easeOutBack]
  ring

theorem tweenT_start (t0 dur : ℚ) : tweenT t0 dur t0 = 0 := by
  simp [tweenT]

theorem tweenT_end (t0 dur : ℚ) (h : dur ≠ 0) : tweenT t0 dur (t0 + dur) = 1 := by
  simp [tweenT, h]

theorem tweenT_clamped (t0 dur now : ℚ) (hdur : 0 < dur) (hnow : t0 ≤ now) :
    0 ≤ tweenT t0 dur now ∧ tweenT t0 dur now ≤ 1 := by
  constructor
  · exact le_min (by norm_num) (div_nonneg (by linarith) (le_of_lt hdur))
  · exact min_le_left _ _

end Cube

namespace Cube

theorem applyFaceSelection_none (w : World) (now : ℚ) (clicked : Mesh)
    (ahr : Bool) (dOv : Option ℚ)
    (hfind : findCubeName w.inter.cubesByName clicked = none) :
    applyFaceSelection w now clicked ahr dOv = w := by
  simp only [applyFaceSelection, hfind]

theorem applyFaceSelection_body (w : World) (now : ℚ) (clicked : Mesh)
    (ahr : Bool) (dOv : Option ℚ) (cubeName : String)
    (hfind : findCubeName w.inter.cubesByName clicked = some cubeName)
    (hbody : clicked.matUUIDs.any (fun mu => w.inter.bodyMaterialUUIDs.contains mu) = true) :
    applyFaceSelection w now clicked ahr dOv = w := by
  simp only [applyFaceSelection, hfind, hbody, if_true]

theorem applyFaceSelection_home (w : World) (now : ℚ) (clicked : Mesh)
    (ahr : Bool) (dOv : Option ℚ) (cubeName : String)
    (hfind : findCubeName w.inter.cubesByName clicked = some cubeName)
    (hbody : clicked.matUUIDs.any (fun mu => w.inter.bodyMaterialUUIDs.contains mu) = false)
    (hhome : ahr = true ∧ cubeName = "top_block_5" ∧ w.selectedCubeName.isSome = true) :
    applyFaceSelection w now clicked ahr dOv = returnToDefault w now := by
  have hbody' : ¬∃ x ∈ clicked.matUUIDs, x ∈ w.inter.bodyMaterialUUIDs := by
    simpa using hbody
  obtain ⟨h1, h2, h3⟩ := hhome
  obtain ⟨n, hn⟩ := Option.isSome_iff_exists.mp h3
  subst h1
  subst h2
  simp [applyFaceSelection, hfind, hbody', hn]

theorem applyFaceSelection_sameFace (w : World) (now : ℚ) (clicked : Mesh)
    (ahr : Bool) (dOv : Option ℚ) (cubeName : String)
    (hfind : findCubeName w.inter.cubesByName clicked = some cubeName)
    (hbody : clicked.matUUIDs.any (fun mu => w.inter.bodyMaterialUUIDs.contains mu) = false)
    (hhome : ¬(ahr = true ∧ cubeName = "top_block_5" ∧ w.selectedCubeName.isSome = true))
    (hsel : w.selectedCubeName = some cubeName)
    (hcur : w.inter.currentlyClickedFace = some clicked) :
    applyFaceSelection w now clicked ahr dOv =
      if now - w.lastSelectionAt < 500 then w else returnToDefault w now := by
  have hbody' : ¬∃ x ∈ clicked.matUUIDs, x ∈ w.inter.bodyMaterialUUIDs := by
    simpa using hbody
  have hhome' : ¬(ahr = true ∧ cubeName = "top_block_5") := by
    intro h
    exact hhome ⟨h.1, h.2, by simp [hsel]⟩
  simp [applyFaceSelection, hfind, hbody', hsel, hcur, hhome']

theorem applyFaceSelection_faceSwitch (w : World) (now : ℚ) (clicked oldFace : Mesh)
    (ahr : Bool) (dOv : Option ℚ) (cubeName : String)
    (hfind : findCubeName w.inter.cubesByName clicked = some cubeName)
    (hbody : clicked.matUUIDs.any (fun mu => w.inter.bodyMaterialUUIDs.contains mu) = false)
    (hhome : ¬(ahr = true ∧ cubeName = "top_block_5" ∧ w.selectedCubeName.isSome = true))
    (hsel : w.selectedCubeName = some cubeName)
    (hcur : w.inter.currentlyClickedFace = some oldFace)
    (hne : clicked ≠ oldFace) :
    applyFaceSelection w now clicked ahr dOv =
      applyFaceSwitch
        (animateCameraToPreset w now
          (w.cfg.getCameraPoseForMesh clicked (dOv.getD w.cfg.babylonClickDistance)) 900
          (some CLICK_INTERACTION_FOV)) now clicked oldFace cubeName := by
  have hbody' : ¬∃ x ∈ clicked.matUUIDs, x ∈ w.inter.bodyMaterialUUIDs := by
    simpa using hbody
  have hhome' : ¬(ahr = true ∧ cubeName = "top_block_5") := by
    intro h
    exact hhome ⟨h.1, h.2, by simp [hsel]⟩
  have hne' : ¬(oldFace = clicked) := fun h => hne h.symm
  simp [applyFaceSelection, hfind, hbody', hsel, hcur, hhome', hne, hne']

theorem applyFaceSelection_blockSwitch (w : World) (now : ℚ) (clicked : Mesh)
    (ahr : Bool) (dOv : Option ℚ) (cubeName : String)
    (hfind : findCubeName w.inter.cubesByName clicked = some cubeName)
    (hbody : clicked.matUUIDs.any (fun mu => w.inter.bodyMaterialUUIDs.contains mu) = false)
    (hhome : ¬(ahr = true ∧ cubeName = "top_block_5" ∧ w.selectedCubeName.isSome = true))
    (hsame : ¬(w.selectedCubeName = some cubeName ∧
      w.inter.currentlyClickedFace = some clicked))
    (hblock : w.inter.currentlyClickedFace = none ∨
      ∀ oldFace, w.inter.currentlyClickedFace = some oldFace →
        ¬(w.selectedCubeName = some cubeName ∧ clicked ≠ oldFace)) :
    applyFaceSelection w now clicked ahr dOv =
      applyBlockSwitch
        (animateCameraToPreset w now
          (w.cfg.getCameraPoseForMesh clicked (dOv.getD w.cfg.babylonClickDistance)) 900
          (some CLICK_INTERACTION_FOV)) now clicked cubeName := by
  have hbody' : ¬∃ x ∈ clicked.matUUIDs, x ∈ w.inter.bodyMaterialUUIDs := by
    simpa using hbody
  rcases hblock with hnone | hold
  · have hsame' : ¬(w.selectedCubeName = some cubeName ∧
        w.inter.currentlyClickedFace = some clicked) := hsame
    simp [applyFaceSelection, hfind, hbody', hnone, hhome]
  · cases hcur : w.inter.currentlyClickedFace with
    | none => simp [applyFaceSelection, hfind, hbody', hcur, hhome]
    | some oldFace =>
      have hnot := hold oldFace hcur
      by_cases hselc : w.selectedCubeName = some cubeName
      · have hnne : ¬(clicked ≠ oldFace) := fun h => hnot ⟨hselc, h⟩
        have heq : clicked = oldFace := not_not.mp hnne
        subst heq
        exact absurd ⟨hselc, hcur⟩ hsame
      · simp [applyFaceSelection, hfind, hbody', hcur, hselc, hhome]

end Cube

namespace Cube

theorem applyBlockSwitch_selected (w1 : World) (now : ℚ) (clicked : Mesh) (cubeName : String) :
    (applyBlockSwitch w1 now clicked cubeName).selectedCubeName = some cubeName := by
  rw [applyBlockSwitch_eq]

theorem applyBlockSwitch_clickedFace (w1 : World) (now : ℚ) (clicked : Mesh) (cubeName : String) :
    (applyBlockSwitch w1 now clicked cubeName).inter.currentlyClickedFace = some clicked := by
  rw [applyBlockSwitch_eq]

theorem applyBlockSwitch_cubes (w1 : World) (now : ℚ) (clicked : Mesh) (cubeName : String) :
    (applyBlockSwitch w1 now clicked cubeName).inter.cubesByName = w1.inter.cubesByName := by
  rw [applyBlockSwitch_eq]

theorem applyBlockSwitch_bodyUUIDs (w1 : World) (now : ℚ) (clicked : Mesh) (cubeName : String) :
    (applyBlockSwitch w1 now clicked cubeName).inter.bodyMaterialUUIDs =
      w1.inter.bodyMaterialUUIDs := by
  rw [applyBlockSwitch_eq]

theorem applyBlockSwitch_last (w1 : World) (now : ℚ) (clicked : Mesh) (cubeName : String) :
    (applyBlockSwitch w1 now clicked cubeName).lastSelectionAt = now := by
  rw [applyBlockSwitch_eq]

theorem applyBlockSwitch_camera (w1 : World) (now : ℚ) (clicked : Mesh) (cubeName : String) :
    (applyBlockSwitch w1 now clicked cubeName).anim.camera = w1.anim.camera := by
  rw [applyBlockSwitch_eq]

theorem animateCameraToPreset_camera_isSome (w : World) (now : ℚ) (toPose : Pose)
    (durationMs : ℚ) (toFovOpt : Option ℚ) :
    (animateCameraToPreset w now toPose durationMs toFovOpt).anim.camera.isSome = true := rfl

/-- C4 counterexample: the claim quantifies over every `Selected(B, X)` and
over `selectFace(X)` from `Default`; take `X` a face of the designated home
block.  From `Default`, the first call selects the home block; the second
call 100 ms later hits the home-reset rule, which precedes the debounce
rule, and resets the selection — contradicting the claimed "exactly one
transition ... and no Reset" and the claimed "ignored entirely" within the
window. -/
theorem C4_counterexample :
    (applyFaceSelection Fix.w0 1000 Fix.faceH true none).selectedCubeName =
      some "top_block_5" ∧
    (applyFaceSelection (applyFaceSelection Fix.w0 1000 Fix.faceH true none) 1100
      Fix.faceH true none).selectedCubeName = none ∧
    (applyFaceSelection (applyFaceSelection Fix.w0 1000 Fix.faceH true none) 1100
      Fix.faceH true none).lastSelectionAt = -1 := by
  refine ⟨?_, ?_, ?_⟩ <;> rfl

/-- C4 (amended): restricted to faces whose block is not the designated
home block (the home-reset rule precedes the debounce rule and would fire
first).  From `Selected(B, X)`, selecting face `X` again triggers Reset
iff at least the 500 ms debounce window has elapsed since the last
selection timestamp; strictly within the window the event is ignored
entirely (the state is returned unchanged).  Two calls to
`selectFace(X)` within the window from `Default` produce exactly one
transition, to `Selected(block(X), X)`, and no Reset. -/
theorem C4_same_face_debounce :
    (∀ (w : World) (now : ℚ) (clicked : Mesh) (ahr : Bool) (dOv : Option ℚ) (B : String),
      findCubeName w.inter.cubesByName clicked = some B →
      clicked.matUUIDs.any (fun mu => w.inter.bodyMaterialUUIDs.contains mu) = false →
      B ≠ "top_block_5" →
      w.selectedCubeName = some B →
      w.inter.currentlyClickedFace = some clicked →
      ((now - w.lastSelectionAt < 500 → applyFaceSelection w now clicked ahr dOv = w) ∧
       (¬(now - w.lastSelectionAt < 500) →
          applyFaceSelection w now clicked ahr dOv = returnToDefault w now))) ∧
    (∀ (w : World) (t1 t2 : ℚ) (clicked : Mesh) (ahr : Bool) (dOv : Option ℚ) (B : String),
      findCubeName w.inter.cubesByName clicked = some B →
      clicked.matUUIDs.any (fun mu => w.inter.bodyMaterialUUIDs.contains mu) = false →
      B ≠ "top_block_5" →
      w.selectedCubeName = none →
      t2 - t1 < 500 →
      (applyFaceSelection w t1 clicked ahr dOv).selectedCubeName = some B ∧
      applyFaceSelection (applyFaceSelection w t1 clicked ahr dOv) t2 clicked ahr dOv =
        applyFaceSelection w t1 clicked ahr dOv) := by
  have hhomeOf : ∀ (w : World) (ahr : Bool) (B : String), B ≠ "top_block_5" →
      ¬(ahr = true ∧ B = "top_block_5" ∧ w.selectedCubeName.isSome = true) := by
    intro w ahr B hB h
    exact hB h.2.1
  constructor
  · intro w now clicked ahr dOv B hfind hbody hB hsel hcur
    rw [applyFaceSelection_sameFace w now clicked ahr dOv B hfind hbody
      (hhomeOf w ahr B hB) hsel hcur]
    constructor
    · intro h
      rw [if_pos h]
    · intro h
      rw [if_neg h]
  · intro w t1 t2 clicked ahr dOv B hfind hbody hB hsel hlt
    have hsame : ¬(w.selectedCubeName = some B ∧
        w.inter.currentlyClickedFace = some clicked) := by
      intro h
      rw [hsel] at h
      cases h.1
    have hblock : w.inter.currentlyClickedFace = none ∨
        ∀ oldFace, w.inter.currentlyClickedFace = some oldFace →
          ¬(w.selectedCubeName = some B ∧ clicked ≠ oldFace) := by
      right
      intro oldFace _ h
      rw [hsel] at h
      cases h.1
    have h1 := applyFaceSelection_blockSwitch w t1 clicked ahr dOv B hfind hbody
      (hhomeOf w ahr B hB) hsame hblock
    constructor
    · rw [h1, applyBlockSwitch_selected]
    · rw [h1]
      have hfind2 : findCubeName (applyBlockSwitch
          (animateCameraToPreset w t1
            (w.cfg.getCameraPoseForMesh clicked (dOv.getD w.cfg.babylonClickDistance)) 900
            (some CLICK_INTERACTION_FOV)) t1 clicked B).inter.cubesByName clicked = some B := by
        rw [applyBlockSwitch_cubes]
        exact hfind
      have hbody2 : clicked.matUUIDs.any (fun mu => (applyBlockSwitch
          (animateCameraToPreset w t1
            (w.cfg.getCameraPoseForMesh clicked (dOv.getD w.cfg.babylonClickDistance)) 900
            (some CLICK_INTERACTION_FOV)) t1 clicked B).inter.bodyMaterialUUIDs.contains mu) =
          false := by
        rw [applyBlockSwitch_bodyUUIDs]
        exact hbody
      rw [applyFaceSelection_sameFace _ t2 clicked ahr dOv B hfind2 hbody2
        (hhomeOf _ ahr B hB) (applyBlockSwitch_selected _ _ _ _)
        (applyBlockSwitch_clickedFace _ _ _ _)]
      rw [applyBlockSwitch_last]
      rw [if_pos hlt]

/-- C4 witness: evaluating the amended theorem on the concrete scene: a
within-window repeat tap on `faceA` is a no-op, an after-window repeat
triggers Reset, and the two-call sequence from `Default` produces exactly
one transition. -/
theorem C4_witness :
    applyFaceSelection Fix.wSelA 100 Fix.faceA true none = Fix.wSelA ∧
    applyFaceSelection Fix.wSelA 600 Fix.faceA true none =
      returnToDefault Fix.wSelA 600 ∧
    (applyFaceSelection Fix.w0 1000 Fix.faceA true none).selectedCubeName =
      some "block_b" ∧
    applyFaceSelection (applyFaceSelection Fix.w0 1000 Fix.faceA true none) 1100
        Fix.faceA true none =
      applyFaceSelection Fix.w0 1000 Fix.faceA true none := by
  refine ⟨?_, ?_, ?_, ?_⟩
  · exact ((C4_same_face_debounce.1 Fix.wSelA 100 Fix.faceA true none "block_b"
      (by decide) (by decide) (by decide) rfl rfl).1
      (by norm_num [Fix.wSelA, Fix.w0]))
  · exact ((C4_same_face_debounce.1 Fix.wSelA 600 Fix.faceA true none "block_b"
      (by decide) (by decide) (by decide) rfl rfl).2
      (by norm_num [Fix.wSelA, Fix.w0]))
  · exact (C4_same_face_debounce.2 Fix.w0 1000 1100 Fix.faceA true none "block_b"
      (by decide) (by decide) (by decide) rfl (by norm_num)).1
  · exact (C4_same_face_debounce.2 Fix.w0 1000 1100 Fix.faceA true none "block_b"
      (by decide) (by decide) (by decide) rfl (by norm_num)).2

end Cube

namespace Cube

/-- C1 counterexample: in the `Default` state (no selection, no tweens in
flight) tapping a face of the home block `top_block_5` is not a no-op:
the selection state changes to the home block and camera/scale tweens are
issued. -/
theorem C1_counterexample :
    Fix.w0.selectedCubeName = none ∧
    Fix.w0.anim.camera = none ∧
    Fix.w0.anim.scale = [] ∧
    (applyFaceSelection Fix.w0 1000 Fix.faceH true none).selectedCubeName =
      some "top_block_5" ∧
    (applyFaceSelection Fix.w0 1000 Fix.faceH true none).anim.camera.isSome = true ∧
    (applyFaceSelection Fix.w0 1000 Fix.faceH true none).anim.scale ≠ [] := by
  refine ⟨rfl, rfl, rfl, rfl, rfl, ?_⟩
  decide

/-- C1 (amended): tapping a face of the designated home block
(`top_block_5`) with `allowHomeReset` while a selection is active
triggers the Reset transition; tapping the home block when no selection
is active is processed as an ordinary Block-Switch selection of the home
block itself (the home-reset rule is skipped so that an initial tap does
not instantly snap back to the default view), not a no-op. -/
theorem C1_home_block_tap :
    ∀ (w : World) (now : ℚ) (clicked : Mesh) (dOv : Option ℚ),
      findCubeName w.inter.cubesByName clicked = some "top_block_5" →
      clicked.matUUIDs.any (fun mu => w.inter.bodyMaterialUUIDs.contains mu) = false →
      ((∀ n, w.selectedCubeName = some n →
          applyFaceSelection w now clicked true dOv = returnToDefault w now) ∧
       (w.selectedCubeName = none →
          (applyFaceSelection w now clicked true dOv).selectedCubeName =
            some "top_block_5" ∧
          (applyFaceSelection w now clicked true dOv).inter.currentlyClickedFace =
            some clicked ∧
          (applyFaceSelection w now clicked true dOv).lastSelectionAt = now ∧
          (applyFaceSelection w now clicked true dOv).anim.camera.isSome = true)) := by
  intro w now clicked dOv hfind hbody
  constructor
  · intro n hn
    exact applyFaceSelection_home w now clicked true dOv "top_block_5" hfind hbody
      ⟨rfl, rfl, by simp [hn]⟩
  · intro hnone
    have hsame : ¬(w.selectedCubeName = some "top_block_5" ∧
        w.inter.currentlyClickedFace = some clicked) := by
      intro h
      rw [hnone] at h
      cases h.1
    have hhome : ¬(true = true ∧ "top_block_5" = "top_block_5" ∧
        w.selectedCubeName.isSome = true) := by
      intro h
      rw [hnone] at h
      cases h.2.2
    have hblock : w.inter.currentlyClickedFace = none ∨
        ∀ oldFace, w.inter.currentlyClickedFace = some oldFace →
          ¬(w.selectedCubeName = some "top_block_5" ∧ clicked ≠ oldFace) := by
      right
      intro oldFace _ h
      rw [hnone] at h
      cases h.1
    have h1 := applyFaceSelection_blockSwitch w now clicked true dOv "top_block_5"
      hfind hbody hhome hsame hblock
    rw [h1]
    exact ⟨applyBlockSwitch_selected _ _ _ _, applyBlockSwitch_clickedFace _ _ _ _,
      applyBlockSwitch_last _ _ _ _, by rw [applyBlockSwitch_camera]; rfl⟩

/-- C1 witness: the amended theorem evaluated on the concrete scene: from
`Selected(top_block_5, faceH)` the home tap resets; from `Default` it
selects the home block. -/
theorem C1_witness :
    applyFaceSelection Fix.wSelH 1000 Fix.faceH true none =
      returnToDefault Fix.wSelH 1000 ∧
    (applyFaceSelection Fix.w0 1000 Fix.faceH true none).selectedCubeName =
      some "top_block_5" := by
  constructor
  · exact (C1_home_block_tap Fix.wSelH 1000 Fix.faceH none (by decide) (by decide)).1
      "top_block_5" rfl
  · exact ((C1_home_block_tap Fix.w0 1000 Fix.faceH none (by decide) (by decide)).2 rfl).1

end Cube

namespace Cube

theorem animateCameraToPreset_glow (w : World) (now : ℚ) (toPose : Pose)
    (durationMs : ℚ) (toFovOpt : Option ℚ) :
    (animateCameraToPreset w now toPose durationMs toFovOpt).glow = w.glow := rfl

theorem animateCameraToPreset_scene (w : World) (now : ℚ) (toPose : Pose)
    (durationMs : ℚ) (toFovOpt : Option ℚ) :
    (animateCameraToPreset w now toPose durationMs toFovOpt).scene = w.scene := rfl

theorem animateCameraToPreset_inter (w : World) (now : ℚ) (toPose : Pose)
    (durationMs : ℚ) (toFovOpt : Option ℚ) :
    (animateCameraToPreset w now toPose durationMs toFovOpt).inter = w.inter := rfl

theorem animateCameraToPreset_opacity (w : World) (now : ℚ) (toPose : Pose)
    (durationMs : ℚ) (toFovOpt : Option ℚ) :
    (animateCameraToPreset w now toPose durationMs toFovOpt).anim.opacity =
      w.anim.opacity := rfl

theorem animateCameraToPreset_scale (w : World) (now : ℚ) (toPose : Pose)
    (durationMs : ℚ) (toFovOpt : Option ℚ) :
    (animateCameraToPreset w now toPose durationMs toFovOpt).anim.scale =
      w.anim.scale := rfl

/-- C2 counterexample: from `Selected(block_b, faceA)` (no scale tween in
flight) tapping `faceB` of the same block takes the face-switch branch
and nevertheless issues scale tweens (the branch re-runs the scale sweep
over every cube), contradicting "issues no scale tween for any block". -/
theorem C2_counterexample :
    Fix.wSelA.selectedCubeName = some "block_b" ∧
    Fix.wSelA.inter.currentlyClickedFace = some Fix.faceA ∧
    findCubeName Fix.wSelA.inter.cubesByName Fix.faceB = some "block_b" ∧
    Fix.faceB ≠ Fix.faceA ∧
    Fix.wSelA.anim.scale = [] ∧
    (applyFaceSelection Fix.wSelA 1000 Fix.faceB true none).anim.scale ≠ [] := by
  refine ⟨rfl, rfl, by decide, by decide, rfl, ?_⟩
  decide

/-- C2 (amended): for a block `B` that is not the designated home block,
from `Selected(B, A)` tapping a different face `X` of the same block
takes the Face-Switch-Within-Block branch, which: re-issues a scale tween
for every block (the tapped block toward the expanded 1.28 with its
bounce, every other block toward the dimmed 0.82) rather than leaving
scales untouched; leaves face A with an opacity tween whose final target
is the dimmed constant 0.15 (it is first tweened toward the literal 0.2
and immediately re-targeted by the sweep over all faces); targets face X
at opacity 1.0 with the emphasis set on X and cleared on A; and updates
the Selection State to `Selected(B, X)`. -/
theorem C2_face_switch_within_block :
    ∀ (w : World) (now : ℚ) (clicked oldFace : Mesh) (ahr : Bool) (dOv : Option ℚ)
      (B : String),
      findCubeName w.inter.cubesByName clicked = some B →
      clicked.matUUIDs.any (fun mu => w.inter.bodyMaterialUUIDs.contains mu) = false →
      B ≠ "top_block_5" →
      w.selectedCubeName = some B →
      w.inter.currentlyClickedFace = some oldFace →
      clicked ≠ oldFace →
      oldFace ∈ w.inter.allFaceMeshes →
      clicked ∈ w.inter.allFaceMeshes →
      (∀ f ∈ w.inter.allFaceMeshes, f.node.uuid = clicked.node.uuid → f = clicked) →
      (∀ f ∈ w.inter.allFaceMeshes, f.node.uuid = oldFace.node.uuid → f = oldFace) →
      ((∃ tw : OpacityTween,
          alookup (applyFaceSelection w now clicked ahr dOv).anim.opacity
            oldFace.node.uuid = some tw ∧ tw.toVal = DIMMED_FACE_OPACITY) ∧
       (∃ tw : OpacityTween,
          alookup (applyFaceSelection w now clicked ahr dOv).anim.opacity
            clicked.node.uuid = some tw ∧ tw.toVal = 1) ∧
       (applyFaceSelection w now clicked ahr dOv).glow clicked.node.uuid = true ∧
       (applyFaceSelection w now clicked ahr dOv).glow oldFace.node.uuid = false ∧
       (∀ p ∈ w.inter.cubesByName,
          (∀ q ∈ w.inter.cubesByName, q.2.uuid = p.2.uuid → q = p) →
          ∃ tw : ScaleTween,
            alookup (applyFaceSelection w now clicked ahr dOv).anim.scale p.2.uuid =
              some tw ∧
            tw.toVal = (if p.1 = B then SELECTED_CUBE_SCALE else DIMMED_CUBE_SCALE) ∧
            tw.bounce = (if p.1 = B then SELECTED_CUBE_BOUNCE else DIMMED_CUBE_BOUNCE)) ∧
       (applyFaceSelection w now clicked ahr dOv).selectedCubeName = some B ∧
       (applyFaceSelection w now clicked ahr dOv).inter.currentlyClickedFace =
         some clicked) := by
  intro w now clicked oldFace ahr dOv B hfind hbody hB hsel hcur hne hmemA hmemX hinjX hinjA
  have hhome : ¬(ahr = true ∧ B = "top_block_5" ∧ w.selectedCubeName.isSome = true) :=
    fun h => hB h.2.1
  rw [applyFaceSelection_faceSwitch w now clicked oldFace ahr dOv B hfind hbody hhome
    hsel hcur hne, applyFaceSwitch_eq]
  dsimp only [animateCameraToPreset_glow, animateCameraToPreset_scene,
    animateCameraToPreset_inter, animateCameraToPreset_opacity, animateCameraToPreset_scale]
  have hnsA : ¬(oldFace = clicked) := fun h => hne h.symm
  have hnotouch : ∀ x ∈ w.inter.allFaceMeshes, ¬(x = clicked) →
      x.node.uuid ≠ clicked.node.uuid := by
    intro x hx hnx huuid
    exact hnx (hinjX x hx huuid)
  refine ⟨?_, ?_, ?_, ?_, ?_, rfl, rfl⟩
  · exact ⟨_, alookup_foldl_mapSet_skip_inj _ (fun f => f.node.uuid) _
      (fun face => face = clicked) oldFace _ hmemA hnsA hinjA, rfl⟩
  · have hlook := alookup_foldl_mapSet_skip_notouch w.inter.allFaceMeshes
      (fun f => f.node.uuid)
      (fun f => (⟨w.scene.faceOpacity f.node.uuid, DIMMED_FACE_OPACITY, now, 250⟩ :
        OpacityTween))
      (fun face => face = clicked) clicked.node.uuid
      (mapSet (mapSet w.anim.opacity oldFace.node.uuid
          ⟨w.scene.faceOpacity oldFace.node.uuid, 20 / 100, now, 250⟩)
        clicked.node.uuid ⟨w.scene.faceOpacity clicked.node.uuid, 1, now, 250⟩) hnotouch
    rw [hlook, alookup_mapSet_self]
    exact ⟨_, rfl, rfl⟩
  · have hg := foldl_update_skip_notouch w.inter.allFaceMeshes (fun f => f.node.uuid)
      (fun _ => false) (fun face => face = clicked) clicked.node.uuid
      (Function.update (Function.update w.glow oldFace.node.uuid false)
        clicked.node.uuid true) hnotouch
    rw [hg]
    exact Function.update_same _ _ _
  · exact foldl_update_skip_inj w.inter.allFaceMeshes (fun f => f.node.uuid)
      (fun _ => false) (fun face => face = clicked) oldFace
      (Function.update (Function.update w.glow oldFace.node.uuid false)
        clicked.node.uuid true) hmemA hnsA hinjA
  · intro p hp hinjp
    exact ⟨_, alookup_foldl_mapSet_inj _ (fun q => q.2.uuid) _ p _ hp hinjp, rfl, rfl⟩

/-- C2 witness: the amended theorem evaluated on the concrete scene:
tapping `faceB` from `Selected(block_b, faceA)` dims `faceA` to 0.15,
raises `faceB` to 1.0 with the emphasis, re-issues the scale tween of
`block_b` toward the expanded value, and updates the selection. -/
theorem C2_witness :
    (∃ tw : OpacityTween,
      alookup (applyFaceSelection Fix.wSelA 1000 Fix.faceB true none).anim.opacity
        Fix.faceA.node.uuid = some tw ∧ tw.toVal = DIMMED_FACE_OPACITY) ∧
    (∃ tw : OpacityTween,
      alookup (applyFaceSelection Fix.wSelA 1000 Fix.faceB true none).anim.opacity
        Fix.faceB.node.uuid = some tw ∧ tw.toVal = 1) ∧
    (applyFaceSelection Fix.wSelA 1000 Fix.faceB true none).glow
      Fix.faceB.node.uuid = true ∧
    (applyFaceSelection Fix.wSelA 1000 Fix.faceB true none).glow
      Fix.faceA.node.uuid = false ∧
    (∃ tw : ScaleTween,
      alookup (applyFaceSelection Fix.wSelA 1000 Fix.faceB true none).anim.scale
        Fix.bNode.uuid = some tw ∧ tw.toVal = SELECTED_CUBE_SCALE) ∧
    (applyFaceSelection Fix.wSelA 1000 Fix.faceB true none).selectedCubeName =
      some "block_b" := by
  have h := C2_face_switch_within_block Fix.wSelA 1000 Fix.faceB Fix.faceA true none
    "block_b" (by decide) (by decide) (by decide) rfl rfl (by decide) (by decide)
    (by decide) (by decide) (by decide)
  obtain ⟨h1, h2, h3, h4, h5, h6, _⟩ := h
  refine ⟨h1, h2, h3, h4, ?_, h6⟩
  obtain ⟨tw, htw, htv, _⟩ := h5 ("block_b", Fix.bNode) (by decide) (by decide)
  refine ⟨tw, htw, ?_⟩
  rw [htv]
  rfl

end Cube

namespace Cube

/-- C7: the Reset transition (`returnToDefault`, also the public
externally-triggered reset): every block gets a scale tween with target
1.0 (neutral, bounce 0.8), every face an opacity tween with target 1.0
and its emphasis cleared, the singleton camera tween is driven toward the
stored default pose (shortest angular path from the current azimuth) with
the field of view restored to the base `cameraFov`, and the Selection
State is cleared to `Default` (no selected block, no selected face,
debounce stamp reset). -/
theorem C7_reset_effects :
    ∀ (w : World) (now : ℚ),
      (∀ p ∈ w.inter.cubesByName, ∃ tw : ScaleTween,
          alookup (returnToDefault w now).anim.scale p.2.uuid = some tw ∧
          tw.toVal = 1 ∧ tw.bounce = 80 / 100) ∧
      (∀ f ∈ w.inter.allFaceMeshes,
          (∃ tw : OpacityTween,
            alookup (returnToDefault w now).anim.opacity f.node.uuid = some tw ∧
            tw.toVal = 1) ∧
          (returnToDefault w now).glow f.node.uuid = false) ∧
      (∃ twc : CameraTween, (returnToDefault w now).anim.camera = some twc ∧
          twc.fromAz = w.cam.az ∧
          twc.dAz = shortestAngleDelta w.cam.az w.defaultPose.azimuth ∧
          twc.toPol = w.defaultPose.polar ∧
          twc.toDist = w.defaultPose.distance ∧
          twc.toFov = some w.cfg.cameraFov) ∧
      (returnToDefault w now).selectedCubeName = none ∧
      (returnToDefault w now).inter.currentlyClickedFace = none ∧
      (returnToDefault w now).lastSelectionAt = -1 := by
  intro w now
  unfold returnToDefault
  dsimp only
  rw [resetAllCubes_eq]
  dsimp only [animateCameraToPreset_glow, animateCameraToPreset_scene,
    animateCameraToPreset_inter, animateCameraToPreset_opacity, animateCameraToPreset_scale]
  refine ⟨?_, ?_, ⟨_, rfl, rfl, rfl, rfl, rfl, rfl⟩, rfl, rfl, rfl⟩
  · intro p hp
    obtain ⟨v, hv, hP⟩ := alookup_foldl_mapSet_uniform w.inter.cubesByName
      (fun q => q.2.uuid)
      (fun q => (⟨w.scene.cubeScale q.2.uuid, 80 / 100, 1, now, 260⟩ : ScaleTween))
      p (fun tw => tw.toVal = 1 ∧ tw.bounce = 80 / 100) _
      (fun x hx => ⟨rfl, rfl⟩) hp
    exact ⟨v, hv, hP.1, hP.2⟩
  · intro f hf
    constructor
    · obtain ⟨v, hv, hP⟩ := alookup_foldl_mapSet_uniform w.inter.allFaceMeshes
        (fun g => g.node.uuid)
        (fun g => (⟨w.scene.faceOpacity g.node.uuid, 1, now, 250⟩ : OpacityTween))
        f (fun tw => tw.toVal = 1) _ (fun x hx => rfl) hf
      exact ⟨v, hv, hP⟩
    · exact foldl_update_uniform w.inter.allFaceMeshes (fun g => g.node.uuid)
        (fun _ => false) f false _ (fun x hx => rfl) hf

/-- C7 witness: the Reset effects evaluated on the concrete selected
world: cube `block_b` scales toward 1.0, face `faceA` fades toward 1.0
with its emphasis cleared, the camera tween restores the base fov 45, and
the state is cleared. -/
theorem C7_witness :
    (∃ tw : ScaleTween,
      alookup (returnToDefault Fix.wSelA 1000).anim.scale Fix.bNode.uuid = some tw ∧
      tw.toVal = 1 ∧ tw.bounce = 80 / 100) ∧
    (∃ tw : OpacityTween,
      alookup (returnToDefault Fix.wSelA 1000).anim.opacity Fix.faceA.node.uuid =
        some tw ∧ tw.toVal = 1) ∧
    (returnToDefault Fix.wSelA 1000).glow Fix.faceA.node.uuid = false ∧
    (∃ twc : CameraTween, (returnToDefault Fix.wSelA 1000).anim.camera = some twc ∧
      twc.toFov = some 45) ∧
    (returnToDefault Fix.wSelA 1000).selectedCubeName = none := by
  have h := C7_reset_effects Fix.wSelA 1000
  obtain ⟨hs, hfo, ⟨twc, hc1, _, _, _, _, hc2⟩, hsel, _, _⟩ := h
  refine ⟨hs ("block_b", Fix.bNode) (by decide), ?_, ?_, ⟨twc, hc1, hc2⟩, hsel⟩
  · exact (hfo Fix.faceA (by decide)).1
  · exact (hfo Fix.faceA (by decide)).2

end Cube

namespace Cube

theorem advanceScale_opacity (now : ℚ) (w : World) :
    (advanceScale now w).anim.opacity = w.anim.opacity := rfl

theorem advanceCenter_opacity (now : ℚ) (w : World) :
    (advanceCenter now w).anim.opacity = w.anim.opacity := by
  unfold advanceCenter
  cases w.anim.center with
  | none => rfl
  | some tw =>
    dsimp only
    split
    · rfl
    · rfl

theorem advanceCamera_opacity (now : ℚ) (w : World) :
    (advanceCamera now w).anim.opacity = w.anim.opacity := by
  unfold advanceCamera
  cases w.anim.camera with
  | none => rfl
  | some tw =>
    dsimp only
    split
    · rfl
    · rfl

theorem advanceCenter_scaleMap (now : ℚ) (w : World) :
    (advanceCenter now w).anim.scale = w.anim.scale := by
  unfold advanceCenter
  cases w.anim.center with
  | none => rfl
  | some tw =>
    dsimp only
    split
    · rfl
    · rfl

theorem advanceCamera_scaleMap (now : ℚ) (w : World) :
    (advanceCamera now w).anim.scale = w.anim.scale := by
  unfold advanceCamera
  cases w.anim.camera with
  | none => rfl
  | some tw =>
    dsimp only
    split
    · rfl
    · rfl

theorem advanceCenter_camera (now : ℚ) (w : World) :
    (advanceCenter now w).anim.camera = w.anim.camera := by
  unfold advanceCenter
  cases w.anim.center with
  | none => rfl
  | some tw =>
    dsimp only
    split
    · rfl
    · rfl

theorem advanceCamera_center (now : ℚ) (w : World) :
    (advanceCamera now w).anim.center = w.anim.center := by
  unfold advanceCamera
  cases w.anim.camera with
  | none => rfl
  | some tw =>
    dsimp only
    split
    · rfl
    · rfl

theorem advanceCenter_none_of (now : ℚ) (w : World) (tw : CenterTween)
    (h : w.anim.center = some tw) (ht : 1 ≤ tweenT tw.t0 tw.dur now) :
    (advanceCenter now w).anim.center = none := by
  simp [advanceCenter, h, ht]

theorem advanceCamera_none_of (now : ℚ) (w : World) (tw : CameraTween)
    (h : w.anim.camera = some tw) (ht : 1 ≤ tweenT tw.t0 tw.dur now) :
    (advanceCamera now w).anim.camera = none := by
  simp [advanceCamera, h, ht]

/-- C8: per-frame tween advancement.  The elapsed fraction
`min(1, (now - t0) / dur)` is clamped into `[0, 1]` for every frame at or
after the insertion time; every tween kind samples exactly its start
value at `t = 0` and exactly its end value at `t = 1` (for the camera,
azimuth ends at `fromAz + dAz` and fov at the target fov); and a tween
whose fraction has reached 1 is retired by the frame: keyed opacity and
scale tweens are removed from their maps, the singleton center and camera
slots are cleared. -/
theorem C8_tween_sampling :
    (∀ t0 dur now : ℚ, 0 < dur → t0 ≤ now →
      0 ≤ tweenT t0 dur now ∧ tweenT t0 dur now ≤ 1) ∧
    (∀ tw : OpacityTween, sampleOpacity tw.t0 tw = tw.fromVal) ∧
    (∀ tw : OpacityTween, tw.dur ≠ 0 → sampleOpacity (tw.t0 + tw.dur) tw = tw.toVal) ∧
    (∀ tw : ScaleTween, sampleScale tw.t0 tw = tw.fromVal) ∧
    (∀ tw : ScaleTween, tw.dur ≠ 0 → sampleScale (tw.t0 + tw.dur) tw = tw.toVal) ∧
    (∀ tw : CenterTween, sampleCenterX tw.t0 tw = tw.fromX ∧
      sampleCenterRotY tw.t0 tw = tw.fromRotY) ∧
    (∀ tw : CenterTween, tw.dur ≠ 0 → sampleCenterX (tw.t0 + tw.dur) tw = tw.toX ∧
      sampleCenterRotY (tw.t0 + tw.dur) tw = tw.toRotY) ∧
    (∀ tw : CameraTween, sampleCameraAz tw.t0 tw = tw.fromAz ∧
      sampleCameraPol tw.t0 tw = tw.fromPol ∧
      sampleCameraDist tw.t0 tw = tw.fromDist) ∧
    (∀ tw : CameraTween, tw.dur ≠ 0 →
      sampleCameraAz (tw.t0 + tw.dur) tw = tw.fromAz + tw.dAz ∧
      sampleCameraPol (tw.t0 + tw.dur) tw = tw.toPol ∧
      sampleCameraDist (tw.t0 + tw.dur) tw = tw.toDist ∧
      (∀ f g : ℚ, tw.fromFov = some f → tw.toFov = some g →
        sampleCameraFov (tw.t0 + tw.dur) tw 0 = g)) ∧
    (∀ (w : World) (now : ℚ) (k : ℕ) (tw : OpacityTween),
      (k, tw) ∈ w.anim.opacity → 1 ≤ tweenT tw.t0 tw.dur now →
      (k, tw) ∉ (advanceFrame now w).anim.opacity) ∧
    (∀ (w : World) (now : ℚ) (k : ℕ) (tw : ScaleTween),
      (k, tw) ∈ w.anim.scale → 1 ≤ tweenT tw.t0 tw.dur now →
      (k, tw) ∉ (advanceFrame now w).anim.scale) ∧
    (∀ (w : World) (now : ℚ) (tw : CenterTween),
      w.anim.center = some tw → 1 ≤ tweenT tw.t0 tw.dur now →
      (advanceFrame now w).anim.center = none) ∧
    (∀ (w : World) (now : ℚ) (tw : CameraTween),
      w.anim.camera = some tw → 1 ≤ tweenT tw.t0 tw.dur now →
      (advanceFrame now w).anim.camera = none) := by
  refine ⟨tweenT_clamped, ?_, ?_, ?_, ?_, ?_, ?_, ?_, ?_, ?_, ?_, ?_, ?_⟩
  · intro tw
    simp [sampleOpacity, tweenT_start, easeInOutCubic_zero]
  · intro tw h
    rw [sampleOpacity, tweenT_end _ _ h, easeInOutCubic_one]
    ring
  · intro tw
    rw [sampleScale, tweenT_start]
    norm_num [easeInOutCubic_zero]
  · intro tw h
    rw [sampleScale, tweenT_end _ _ h]
    norm_num [easeInOutCubic_one]
  · intro tw
    constructor
    · simp [sampleCenterX, tweenT_start, easeOutBack_zero]
    · simp [sampleCenterRotY, tweenT_start, easeOutCubic_zero]
  · intro tw h
    constructor
    · rw [sampleCenterX, tweenT_end _ _ h, easeOutBack_one]
      ring
    · rw [sampleCenterRotY, tweenT_end _ _ h, easeOutCubic_one]
      ring
  · intro tw
    refine ⟨?_, ?_, ?_⟩
    · simp [sampleCameraAz, tweenT_start, easeInOutCubic_zero]
    · simp [sampleCameraPol, tweenT_start, easeInOutCubic_zero]
    · rw [sampleCameraDist, cameraDistE, tweenT_start]
      norm_num [easeInOutCubic_zero]
  · intro tw h
    refine ⟨?_, ?_, ?_, ?_⟩
    · rw [sampleCameraAz, tweenT_end _ _ h, easeInOutCubic_one]
      ring
    · rw [sampleCameraPol, tweenT_end _ _ h, easeInOutCubic_one]
      ring
    · rw [sampleCameraDist, cameraDistE, tweenT_end _ _ h]
      norm_num [easeInOutCubic_one]
    · intro f g hf hg
      rw [sampleCameraFov]
      rw [hf, hg]
      rw [cameraDistE, tweenT_end _ _ h]
      norm_num [easeInOutCubic_one]
  · intro w now k tw hmem ht
    unfold advanceFrame
    rw [advanceCamera_opacity, advanceCenter_opacity, advanceScale_opacity]
    simp only [advanceOpacity]
    intro hcon
    rw [List.mem_filter] at hcon
    have := of_decide_eq_true hcon.2
    simp only at this
    linarith
  · intro w now k tw hmem ht
    unfold advanceFrame
    rw [advanceCamera_scaleMap, advanceCenter_scaleMap]
    simp only [advanceScale]
    intro hcon
    rw [List.mem_filter] at hcon
    have := of_decide_eq_true hcon.2
    simp only at this
    linarith
  · intro w now tw h ht
    unfold advanceFrame
    rw [advanceCamera_center]
    have h2 : (advanceScale now (advanceOpacity now w)).anim.center = some tw := h
    exact advanceCenter_none_of now _ tw h2 ht
  · intro w now tw h ht
    unfold advanceFrame
    have h3 : (advanceCenter now (advanceScale now (advanceOpacity now w))).anim.camera =
        some tw := by
      rw [advanceCenter_camera]
      exact h
    exact advanceCamera_none_of now _ tw h3 ht

/-- C8 witness: the sampling contract evaluated on the concrete tweens:
the in-flight opacity tween starts at its start value and ends exactly at
its end value, the elapsed fraction is clamped at a mid-flight frame, and
a frame at the end time retires every tween of the concrete world. -/
theorem C8_witness :
    (0 ≤ tweenT 0 250 100 ∧ tweenT 0 250 100 ≤ 1) ∧
    sampleOpacity Fix.twOp.t0 Fix.twOp = Fix.twOp.fromVal ∧
    sampleOpacity (Fix.twOp.t0 + Fix.twOp.dur) Fix.twOp = Fix.twOp.toVal ∧
    sampleScale (Fix.twSc.t0 + Fix.twSc.dur) Fix.twSc = Fix.twSc.toVal ∧
    sampleCameraAz (Fix.twCam.t0 + Fix.twCam.dur) Fix.twCam =
      Fix.twCam.fromAz + Fix.twCam.dAz ∧
    (11, Fix.twOp) ∉ (advanceFrame 250 Fix.wTw).anim.opacity ∧
    (advanceFrame 1400 Fix.wTw).anim.center = none := by
  refine ⟨C8_tween_sampling.1 0 250 100 (by norm_num) (by norm_num), ?_, ?_, ?_, ?_, ?_, ?_⟩
  · exact C8_tween_sampling.2.1 Fix.twOp
  · exact C8_tween_sampling.2.2.1 Fix.twOp (by norm_num [Fix.twOp])
  · exact C8_tween_sampling.2.2.2.2.1 Fix.twSc (by norm_num [Fix.twSc])
  · exact (C8_tween_sampling.2.2.2.2.2.2.2.2.1 Fix.twCam (by norm_num [Fix.twCam])).1
  · exact C8_tween_sampling.2.2.2.2.2.2.2.2.2.1 Fix.wTw 250 11 Fix.twOp (by decide)
      (by norm_num [Fix.twOp, tweenT])
  · exact C8_tween_sampling.2.2.2.2.2.2.2.2.2.2.2.1 Fix.wTw 1400 Fix.twCen rfl
      (by norm_num [Fix.twCen, tweenT])

end Cube

namespace Cube

theorem advanceScale_faceOpacity (now : ℚ) (w : World) :
    (advanceScale now w).scene.faceOpacity = w.scene.faceOpacity := rfl

theorem advanceOpacity_cubeScale (now : ℚ) (w : World) :
    (advanceOpacity now w).scene.cubeScale = w.scene.cubeScale := rfl

theorem advanceOpacity_camera (now : ℚ) (w : World) :
    (advanceOpacity now w).anim.camera = w.anim.camera := rfl

theorem advanceScale_camera (now : ℚ) (w : World) :
    (advanceScale now w).anim.camera = w.anim.camera := rfl

theorem advanceOpacity_cam (now : ℚ) (w : World) :
    (advanceOpacity now w).cam = w.cam := rfl

theorem advanceScale_cam (now : ℚ) (w : World) :
    (advanceScale now w).cam = w.cam := rfl

theorem advanceCenter_faceOpacity (now : ℚ) (w : World) :
    (advanceCenter now w).scene.faceOpacity = w.scene.faceOpacity := by
  unfold advanceCenter
  cases w.anim.center with
  | none => rfl
  | some tw =>
    dsimp only
    split
    · rfl
    · rfl

theorem advanceCenter_cubeScale (now : ℚ) (w : World) :
    (advanceCenter now w).scene.cubeScale = w.scene.cubeScale := by
  unfold advanceCenter
  cases w.anim.center with
  | none => rfl
  | some tw =>
    dsimp only
    split
    · rfl
    · rfl

theorem advanceCenter_cam (now : ℚ) (w : World) :
    (advanceCenter now w).cam = w.cam := by
  unfold advanceCenter
  cases w.anim.center with
  | none => rfl
  | some tw =>
    dsimp only
    split
    · rfl
    · rfl

theorem advanceCamera_scene (now : ℚ) (w : World) :
    (advanceCamera now w).scene = w.scene := by
  unfold advanceCamera
  cases w.anim.camera with
  | none => rfl
  | some tw =>
    dsimp only
    split
    · rfl
    · rfl

theorem advanceCamera_cam_of (now : ℚ) (w : World) (tw : CameraTween)
    (h : w.anim.camera = some tw) :
    (advanceCamera now w).cam.az = sampleCameraAz now tw ∧
    (advanceCamera now w).cam.pol = sampleCameraPol now tw ∧
    (advanceCamera now w).cam.dist = sampleCameraDist now tw ∧
    (advanceCamera now w).cam.fov = sampleCameraFov now tw w.cam.fov := by
  unfold advanceCamera
  rw [h]
  dsimp only
  split
  · exact ⟨rfl, rfl, rfl, rfl⟩
  · exact ⟨rfl, rfl, rfl, rfl⟩

theorem advanceOpacity_faceOpacity_of (now : ℚ) (w : World) (k : ℕ) (tw : OpacityTween)
    (h : alookup w.anim.opacity k = some tw) (hnd : (w.anim.opacity.map Prod.fst).Nodup) :
    (advanceOpacity now w).scene.faceOpacity k = sampleOpacity now tw := by
  simp only [advanceOpacity]
  exact foldl_update_lookup w.anim.opacity (sampleOpacity now) k tw _ h hnd

theorem advanceScale_cubeScale_of (now : ℚ) (w : World) (k : ℕ) (tw : ScaleTween)
    (h : alookup w.anim.scale k = some tw) (hnd : (w.anim.scale.map Prod.fst).Nodup) :
    (advanceScale now w).scene.cubeScale k = sampleScale now tw := by
  simp only [advanceScale]
  exact foldl_update_lookup w.anim.scale (sampleScale now) k tw _ h hnd

theorem sampleOpacity_insert (v toVal now dur : ℚ) :
    sampleOpacity now ⟨v, toVal, now, dur⟩ = v := by
  simp [sampleOpacity, tweenT_start, easeInOutCubic_zero]

theorem sampleScale_insert (v bounce toVal now dur : ℚ) :
    sampleScale now ⟨v, bounce, toVal, now, dur⟩ = v := by
  rw [sampleScale]
  norm_num [tweenT_start, easeInOutCubic_zero]

theorem sampleCameraAz_insert (now : ℚ) (tw : CameraTween) (h : tw.t0 = now) :
    sampleCameraAz now tw = tw.fromAz := by
  rw [sampleCameraAz, h, tweenT_start, easeInOutCubic_zero]
  ring

theorem sampleCameraPol_insert (now : ℚ) (tw : CameraTween) (h : tw.t0 = now) :
    sampleCameraPol now tw = tw.fromPol := by
  rw [sampleCameraPol, h, tweenT_start, easeInOutCubic_zero]
  ring

theorem sampleCameraDist_insert (now : ℚ) (tw : CameraTween) (h : tw.t0 = now) :
    sampleCameraDist now tw = tw.fromDist := by
  rw [sampleCameraDist, cameraDistE, h, tweenT_start]
  norm_num [easeInOutCubic_zero]

theorem sampleCameraFov_insert (now : ℚ) (tw : CameraTween) (c f g : ℚ)
    (h : tw.t0 = now) (hf : tw.fromFov = some f) (hg : tw.toFov = some g) :
    sampleCameraFov now tw c = f := by
  rw [sampleCameraFov]
  rw [hf, hg]
  rw [cameraDistE, h, tweenT_start]
  norm_num [easeInOutCubic_zero]

/-- C3: replacing an in-flight tween never produces a discontinuity.  For
a face opacity or block scale target with an in-flight tween, advancing
the frame at `now` and then upserting a new tween (as `animateOpacity` /
`animateScale` do, sampling the current value as the new start) yields a
map in which the target now carries the new tween, and the new tween
sampled at the moment of replacement equals the old tween sampled at that
same moment — exactly, rationals carrying no rounding.  The singleton
camera slot likewise: the replacing tween installed by
`animateCameraToPreset` reads the orbit scalars the frame just wrote, so
its azimuth, polar, distance and fov samples at the replacement time
equal the samples of the tween it replaces.  (The fov comparison passes
an arbitrary fallback to the new sample because both of its endpoints
are always set.) -/
theorem C3_tween_replacement_continuity :
    (∀ (w : World) (now : ℚ) (mesh : Mesh) (toVal dur : ℚ) (twOld : OpacityTween),
      alookup w.anim.opacity mesh.node.uuid = some twOld →
      (w.anim.opacity.map Prod.fst).Nodup →
      ∃ twNew : OpacityTween,
        alookup (animateOpacity (advanceFrame now w) now mesh toVal dur).anim.opacity
          mesh.node.uuid = some twNew ∧
        sampleOpacity now twNew = sampleOpacity now twOld) ∧
    (∀ (w : World) (now : ℚ) (obj : Node) (toVal bounce dur : ℚ) (twOld : ScaleTween),
      alookup w.anim.scale obj.uuid = some twOld →
      (w.anim.scale.map Prod.fst).Nodup →
      ∃ twNew : ScaleTween,
        alookup (animateScale (advanceFrame now w) now obj toVal bounce dur).anim.scale
          obj.uuid = some twNew ∧
        sampleScale now twNew = sampleScale now twOld) ∧
    (∀ (w : World) (now : ℚ) (toPose : Pose) (durMs : ℚ) (fovOpt : Option ℚ)
        (twOld : CameraTween),
      w.anim.camera = some twOld →
      ∃ twNew : CameraTween,
        (animateCameraToPreset (advanceFrame now w) now toPose durMs fovOpt).anim.camera =
          some twNew ∧
        sampleCameraAz now twNew = sampleCameraAz now twOld ∧
        sampleCameraPol now twNew = sampleCameraPol now twOld ∧
        sampleCameraDist now twNew = sampleCameraDist now twOld ∧
        sampleCameraFov now twNew 0 = sampleCameraFov now twOld w.cam.fov) := by
  refine ⟨?_, ?_, ?_⟩
  · intro w now mesh toVal dur twOld h hnd
    refine ⟨_, alookup_mapSet_self _ _ _, ?_⟩
    rw [sampleOpacity_insert]
    unfold advanceFrame
    rw [advanceCamera_scene, advanceCenter_faceOpacity, advanceScale_faceOpacity]
    exact advanceOpacity_faceOpacity_of now w mesh.node.uuid twOld h hnd
  · intro w now obj toVal bounce dur twOld h hnd
    refine ⟨_, alookup_mapSet_self _ _ _, ?_⟩
    rw [sampleScale_insert]
    unfold advanceFrame
    rw [advanceCamera_scene, advanceCenter_cubeScale]
    exact advanceScale_cubeScale_of now _ obj.uuid twOld h hnd
  · intro w now toPose durMs fovOpt twOld h
    have h3 : (advanceCenter now (advanceScale now (advanceOpacity now w))).anim.camera =
        some twOld := by
      rw [advanceCenter_camera]
      exact h
    have hcam := advanceCamera_cam_of now _ twOld h3
    have hfov3 : (advanceCenter now (advanceScale now (advanceOpacity now w))).cam.fov =
        w.cam.fov := by
      rw [advanceCenter_cam]
      rfl
    refine ⟨_, rfl, ?_, ?_, ?_, ?_⟩
    · rw [sampleCameraAz_insert now _ rfl]
      show (advanceFrame now w).cam.az = sampleCameraAz now twOld
      unfold advanceFrame
      exact hcam.1
    · rw [sampleCameraPol_insert now _ rfl]
      show (advanceFrame now w).cam.pol = sampleCameraPol now twOld
      unfold advanceFrame
      exact hcam.2.1
    · rw [sampleCameraDist_insert now _ rfl]
      show (advanceFrame now w).cam.dist = sampleCameraDist now twOld
      unfold advanceFrame
      exact hcam.2.2.1
    · rw [sampleCameraFov_insert now _ 0 ((advanceFrame now w).cam.fov)
        (fovOpt.getD (advanceFrame now w).cam.fov) rfl rfl rfl]
      show (advanceFrame now w).cam.fov = sampleCameraFov now twOld w.cam.fov
      unfold advanceFrame
      rw [hcam.2.2.2, hfov3]

/-- C3 witness: with one tween of every kind in flight at `now = 100`,
replacing each target keeps the sampled value unchanged on the concrete
world. -/
theorem C3_witness :
    (∃ twNew : OpacityTween,
      alookup (animateOpacity (advanceFrame 100 Fix.wTw) 100 Fix.faceA 0 250).anim.opacity
        Fix.faceA.node.uuid = some twNew ∧
      sampleOpacity 100 twNew = sampleOpacity 100 Fix.twOp) ∧
    (∃ twNew : ScaleTween,
      alookup (animateScale (advanceFrame 100 Fix.wTw) 100 Fix.bNode 1 (80 / 100)
        260).anim.scale Fix.bNode.uuid = some twNew ∧
      sampleScale 100 twNew = sampleScale 100 Fix.twSc) ∧
    (∃ twNew : CameraTween,
      (animateCameraToPreset (advanceFrame 100 Fix.wTw) 100 ⟨0, 1, 10⟩ 900
        (some 26)).anim.camera = some twNew ∧
      sampleCameraAz 100 twNew = sampleCameraAz 100 Fix.twCam ∧
      sampleCameraFov 100 twNew 0 = sampleCameraFov 100 Fix.twCam Fix.wTw.cam.fov) := by
  refine ⟨?_, ?_, ?_⟩
  · exact C3_tween_replacement_continuity.1 Fix.wTw 100 Fix.faceA 0 250 Fix.twOp
      rfl (by decide)
  · exact C3_tween_replacement_continuity.2.1 Fix.wTw 100 Fix.bNode 1 (80 / 100) 260
      Fix.twSc rfl (by decide)
  · obtain ⟨twNew, h1, h2, _, _, h5⟩ := C3_tween_replacement_continuity.2.2 Fix.wTw 100
      ⟨0, 1, 10⟩ 900 (some 26) Fix.twCam rfl
    exact ⟨twNew, h1, h2, h5⟩

end Cube

namespace Cube

theorem findCubeName_spec (cubes : List (String × Node)) (m : Mesh) (cubeName : String)
    (h : findCubeName cubes m = some cubeName) :
    ∃ nd ∈ m.chain, nd.name = cubeName ∧ (alookup cubes nd.name).isSome = true := by
  unfold findCubeName at h
  cases hf : m.chain.find? (fun nd => (alookup cubes nd.name).isSome) with
  | none => rw [hf] at h; cases h
  | some nd =>
    rw [hf] at h
    simp at h
    have hp := List.find?_some hf
    exact ⟨nd, List.mem_of_find?_eq_some hf, h, hp⟩

theorem consistent_cube_of_find (cubes : List (String × Node)) (m : Mesh)
    (cubeName : String) (hfind : findCubeName cubes m = some cubeName)
    (hn : NamesFaithful cubes m) :
    ∃ c, alookup cubes cubeName = some c ∧ c ∈ m.chain := by
  obtain ⟨nd, hmem, hname, hsome⟩ := findCubeName_spec cubes m cubeName hfind
  rcases hn nd hmem with hnone | hval
  · rw [hnone] at hsome
    cases hsome
  · exact ⟨nd, hname ▸ hval, hmem⟩

theorem returnToDefault_selected (w : World) (now : ℚ) :
    (returnToDefault w now).selectedCubeName = none := rfl

theorem returnToDefault_clickedFace (w : World) (now : ℚ) :
    (returnToDefault w now).inter.currentlyClickedFace = none := rfl

theorem applyFaceSwitch_selected (w1 : World) (now : ℚ) (clicked oldFace : Mesh)
    (cubeName : String) :
    (applyFaceSwitch w1 now clicked oldFace cubeName).selectedCubeName = some cubeName := by
  rw [applyFaceSwitch_eq]

theorem applyFaceSwitch_clickedFace (w1 : World) (now : ℚ) (clicked oldFace : Mesh)
    (cubeName : String) :
    (applyFaceSwitch w1 now clicked oldFace cubeName).inter.currentlyClickedFace =
      some clicked := by
  rw [applyFaceSwitch_eq]

theorem applyFaceSwitch_cubes (w1 : World) (now : ℚ) (clicked oldFace : Mesh)
    (cubeName : String) :
    (applyFaceSwitch w1 now clicked oldFace cubeName).inter.cubesByName =
      w1.inter.cubesByName := by
  rw [applyFaceSwitch_eq]

/-- C10: internal consistency of the selection state.  If the state is
consistent (either fully `Default` or the selected name is registered in
`cubesByName` and the registered cube node lies on the parent chain of
the recorded face) and the names registered in `cubesByName` identify
their objects uniquely along the tapped chain, then both
`applyFaceSelection` and `returnToDefault` preserve consistency. -/
theorem C10_selection_consistency :
    ∀ (w : World) (now : ℚ) (clicked : Mesh) (ahr : Bool) (dOv : Option ℚ),
      SelectionConsistent w → NamesFaithful w.inter.cubesByName clicked →
      SelectionConsistent (applyFaceSelection w now clicked ahr dOv) ∧
      SelectionConsistent (returnToDefault w now) := by
  intro w now clicked ahr dOv hw hn
  have hreset : SelectionConsistent (returnToDefault w now) :=
    Or.inl ⟨returnToDefault_selected w now, returnToDefault_clickedFace w now⟩
  refine ⟨?_, hreset⟩
  cases hfind : findCubeName w.inter.cubesByName clicked with
  | none =>
    rw [applyFaceSelection_none w now clicked ahr dOv hfind]
    exact hw
  | some cubeName =>
    cases hbody : clicked.matUUIDs.any (fun mu => w.inter.bodyMaterialUUIDs.contains mu) with
    | true =>
      rw [applyFaceSelection_body w now clicked ahr dOv cubeName hfind hbody]
      exact hw
    | false =>
      obtain ⟨c, hc, hchain⟩ := consistent_cube_of_find w.inter.cubesByName clicked
        cubeName hfind hn
      by_cases hhome : ahr = true ∧ cubeName = "top_block_5" ∧
          w.selectedCubeName.isSome = true
      · rw [applyFaceSelection_home w now clicked ahr dOv cubeName hfind hbody hhome]
        exact hreset
      · by_cases hsame : w.selectedCubeName = some cubeName ∧
            w.inter.currentlyClickedFace = some clicked
        · rw [applyFaceSelection_sameFace w now clicked ahr dOv cubeName hfind hbody
            hhome hsame.1 hsame.2]
          by_cases hlt : now - w.lastSelectionAt < 500
          · rw [if_pos hlt]
            exact hw
          · rw [if_neg hlt]
            exact hreset
        · cases hcur : w.inter.currentlyClickedFace with
          | none =>
            rw [applyFaceSelection_blockSwitch w now clicked ahr dOv cubeName hfind hbody
              hhome hsame (Or.inl hcur)]
            refine Or.inr ⟨cubeName, c, clicked, applyBlockSwitch_selected _ _ _ _, ?_,
              applyBlockSwitch_clickedFace _ _ _ _, hchain⟩
            rw [applyBlockSwitch_cubes]
            exact hc
          | some oldFace =>
            by_cases hfs : w.selectedCubeName = some cubeName ∧ clicked ≠ oldFace
            · rw [applyFaceSelection_faceSwitch w now clicked oldFace ahr dOv cubeName
                hfind hbody hhome hfs.1 hcur hfs.2]
              refine Or.inr ⟨cubeName, c, clicked, applyFaceSwitch_selected _ _ _ _ _, ?_,
                applyFaceSwitch_clickedFace _ _ _ _ _, hchain⟩
              rw [applyFaceSwitch_cubes]
              exact hc
            · rw [applyFaceSelection_blockSwitch w now clicked ahr dOv cubeName hfind hbody
                hhome hsame (Or.inr (fun o ho => by
                  rw [hcur] at ho
                  cases ho
                  exact hfs))]
              refine Or.inr ⟨cubeName, c, clicked, applyBlockSwitch_selected _ _ _ _, ?_,
                applyBlockSwitch_clickedFace _ _ _ _, hchain⟩
              rw [applyBlockSwitch_cubes]
              exact hc

/-- C10 witness: consistency evaluated on the concrete `Default` world
tapping `faceA`. -/
theorem C10_witness :
    SelectionConsistent (applyFaceSelection Fix.w0 1000 Fix.faceA true none) ∧
    SelectionConsistent (returnToDefault Fix.w0 1000) := by
  exact C10_selection_consistency Fix.w0 1000 Fix.faceA true none
    (Or.inl ⟨rfl, rfl⟩) (by unfold NamesFaithful; decide)

end Cube

namespace Cube

/-- C6 counterexample: a physical tap whose nearest intersection is the
structural `bodyMesh` (not a selectable face) with the home face behind
it along the same ray is not suppressed: the handler scans the full
intersection list for the first known face and resolves the tap to the
occluded `faceH` — it does see through the occluding geometry. -/
theorem C6_counterexample :
    onModelPointerUp Fix.env0 Fix.evOccluded = some Fix.faceH ∧
    Fix.evOccluded.intersections.map Hit.object = [Fix.bodyMesh, Fix.faceH] ∧
    isKnownFace Fix.inter0 Fix.bodyMesh = false ∧
    isKnownFace Fix.inter0 Fix.faceH = true := by
  refine ⟨?_, rfl, by decide, by decide⟩
  have hpress : ¬(Fix.env0.now - Fix.env0.down.downAt < MIN_CLICK_PRESS_MS) := by
    norm_num [Fix.env0, Fix.press0, MIN_CLICK_PRESS_MS]
  simp only [onModelPointerUp]
  rw [if_neg (by decide), if_neg (by decide), if_neg (by decide), if_neg (by decide),
    if_neg (by decide), if_neg (by decide), if_neg (by decide), if_neg hpress,
    if_neg (by decide), if_neg (by decide), if_neg (by decide), if_neg (by decide)]
  have hfind : Fix.evOccluded.intersections.find?
      (fun hh => isKnownFace Fix.env0.inter hh.object) = some ⟨Fix.faceH⟩ := by decide
  rw [hfind]
  have hsf : sameFaceTap Fix.env0.lastTap Fix.faceH = false := rfl
  have hmt : (Fix.env0.lastTap.pointerType == "touch") = false := rfl
  simp [hsf, hmt]

/-- C6 (amended): when the hit test returns several candidates along the
ray, the handler processes the event only in the dispatch whose
`e.object` is the nearest intersection (all other dispatches for the same
physical tap are dropped), and within that dispatch the tap resolves to
the nearest candidate that is a known selectable face — skipping over,
rather than being blocked by, any nearer structural or unknown surface;
the event is ignored only when no known face is found at all. -/
theorem C6_tap_resolution :
    ∀ (env : GestureEnv) (e : PointerEventRec), TapGuardsPass env e →
      ((notNearestDispatch e = true → onModelPointerUp env e = none) ∧
       (notNearestDispatch e = false →
         ∀ h : Hit,
           e.intersections.find? (fun hh => isKnownFace env.inter hh.object) = some h →
           onModelPointerUp env e = some h.object)) := by
  intro env e hg
  obtain ⟨g1, g2, g3, g4, g5, g6, g7, g8, g9, g10, g11, g12⟩ := hg
  have h320 : ¬(env.now - env.lastTap.time < 320) := fun hlt => g12 (by linarith)
  constructor
  · intro hnn
    simp [onModelPointerUp, g1, g2, g3, g4, g5, hnn]
  · intro hnn h hfind
    simp [onModelPointerUp, g1, g2, g3, g4, g5, g6, g7, g8, g9, g10, g11, hnn, hfind,
      h320, g12]

/-- C6 witness: a clean tap whose nearest intersection is the known face
`faceA` resolves to `faceA` on the concrete scene. -/
theorem C6_witness :
    onModelPointerUp Fix.env0 Fix.evFace = some Fix.faceA := by
  have hg : TapGuardsPass Fix.env0 Fix.evFace := by
    refine ⟨rfl, rfl, by decide, rfl, by decide, rfl, ?_, rfl, rfl, rfl, by decide, ?_⟩
    · norm_num [Fix.env0, Fix.press0, MIN_CLICK_PRESS_MS]
    · norm_num [Fix.env0, Fix.lastTap0]
  exact (C6_tap_resolution Fix.env0 Fix.evFace hg).2 (by decide) ⟨Fix.faceA⟩ (by decide)

end Cube

namespace CubeR

theorem jsMod_nonneg_lt (x y : ℝ) (hy : 0 < y) (hx : 0 ≤ x) :
    0 ≤ jsMod x y ∧ jsMod x y < y := by
  have hxy : 0 ≤ x / y := div_nonneg hx hy.le
  have heq : jsMod x y = y * Int.fract (x / y) := by
    unfold jsMod jsTrunc Int.fract
    rw [if_pos hxy]
    have hyy : y * (x / y) = x := by field_simp
    rw [mul_sub, hyy]
  constructor
  · rw [heq]
    exact mul_nonneg hy.le (Int.fract_nonneg _)
  · rw [heq]
    calc y * Int.fract (x / y) < y * 1 := mul_lt_mul_of_pos_left (Int.fract_lt_one _) hy
      _ = y := mul_one y

theorem jsMod_neg_bounds (x y : ℝ) (hy : 0 < y) (hx : x < 0) :
    -y < jsMod x y ∧ jsMod x y ≤ 0 := by
  have hxy : ¬0 ≤ x / y := by
    rw [not_le]
    exact div_neg_of_neg_of_pos hx hy
  have heq : jsMod x y = y * (x / y - (⌈x / y⌉ : ℝ)) := by
    unfold jsMod jsTrunc
    rw [if_neg hxy]
    have hyy : y * (x / y) = x := by field_simp
    rw [mul_sub, hyy]
  have h1 : (⌈x / y⌉ : ℝ) < x / y + 1 := Int.ceil_lt_add_one _
  have h2 : x / y ≤ (⌈x / y⌉ : ℝ) := Int.le_ceil _
  constructor
  · rw [heq]
    nlinarith
  · rw [heq]
    nlinarith

theorem jsMod_sub_int (x y : ℝ) : ∃ k : ℤ, jsMod x y = x - y * k := by
  unfold jsMod jsTrunc
  by_cases h : 0 ≤ x / y
  · exact ⟨⌊x / y⌋, by rw [if_pos h]⟩
  · exact ⟨⌈x / y⌉, by rw [if_neg h]⟩

theorem normalizeAngle0ToTau_mem (x : ℝ) :
    0 ≤ normalizeAngle0ToTau x ∧ normalizeAngle0ToTau x < Real.pi * 2 := by
  have htau : 0 < Real.pi * 2 := by linarith [Real.pi_pos]
  have hinner : 0 ≤ jsMod x (Real.pi * 2) + Real.pi * 2 := by
    rcases le_or_lt 0 x with hx | hx
    · linarith [(jsMod_nonneg_lt x (Real.pi * 2) htau hx).1]
    · linarith [(jsMod_neg_bounds x (Real.pi * 2) htau hx).1]
  have hmain := jsMod_nonneg_lt (jsMod x (Real.pi * 2) + Real.pi * 2) (Real.pi * 2) htau hinner
  simpa [normalizeAngle0ToTau] using hmain

theorem normalizeAngle0ToTau_cong (x : ℝ) :
    ∃ k : ℤ, normalizeAngle0ToTau x - x = Real.pi * 2 * k := by
  obtain ⟨k1, h1⟩ := jsMod_sub_int x (Real.pi * 2)
  obtain ⟨k2, h2⟩ := jsMod_sub_int (jsMod x (Real.pi * 2) + Real.pi * 2) (Real.pi * 2)
  refine ⟨1 - k1 - k2, ?_⟩
  have hn : normalizeAngle0ToTau x =
      jsMod (jsMod x (Real.pi * 2) + Real.pi * 2) (Real.pi * 2) := rfl
  rw [hn, h2, h1]
  push_cast
  ring

theorem tau_cong_unique (a b : ℝ) (ha0 : 0 ≤ a) (ha1 : a < Real.pi * 2)
    (hb0 : 0 ≤ b) (hb1 : b < Real.pi * 2) (k : ℤ) (h : a - b = Real.pi * 2 * k) :
    a = b := by
  have htau : 0 < Real.pi * 2 := by linarith [Real.pi_pos]
  have hlt : Real.pi * 2 * (k : ℝ) < Real.pi * 2 * 1 := by
    rw [mul_one]
    linarith
  have hgt : Real.pi * 2 * (-1 : ℝ) < Real.pi * 2 * (k : ℝ) := by
    have hx : -(Real.pi * 2) < a - b := by linarith
    rw [h] at hx
    linarith
  have hk1 : (k : ℝ) < 1 := lt_of_mul_lt_mul_left hlt htau.le
  have hk2 : (-1 : ℝ) < (k : ℝ) := lt_of_mul_lt_mul_left hgt htau.le
  have hk0 : k = 0 := by
    have hk1i : k < 1 := by exact_mod_cast hk1
    have hk2i : (-1 : ℤ) < k := by exact_mod_cast hk2
    omega
  rw [hk0] at h
  push_cast at h
  linarith

theorem normalizeAngle0ToTau_eq_of_cong (x y : ℝ) (k : ℤ)
    (h : x - y = Real.pi * 2 * k) :
    normalizeAngle0ToTau x = normalizeAngle0ToTau y := by
  obtain ⟨kx, hx⟩ := normalizeAngle0ToTau_cong x
  obtain ⟨ky, hy⟩ := normalizeAngle0ToTau_cong y
  have hmx := normalizeAngle0ToTau_mem x
  have hmy := normalizeAngle0ToTau_mem y
  refine tau_cong_unique _ _ hmx.1 hmx.2 hmy.1 hmy.2 (kx + k - ky) ?_
  have hsplit : normalizeAngle0ToTau x - normalizeAngle0ToTau y =
      (normalizeAngle0ToTau x - x) + (x - y) - (normalizeAngle0ToTau y - y) := by ring
  rw [hsplit, hx, hy, h]
  push_cast
  ring

/-- C5: for all real angles, `shortestAngleDelta from to` lies in
`[-pi, pi]` and adding it to the source angle is congruent to the target
angle modulo a full turn: `normalizeAngle0ToTau (from + delta) =
normalizeAngle0ToTau to`. -/
theorem C5_shortest_angle_delta :
    ∀ fromAngle toAngle : ℝ,
      -Real.pi ≤ shortestAngleDelta fromAngle toAngle ∧
      shortestAngleDelta fromAngle toAngle ≤ Real.pi ∧
      normalizeAngle0ToTau (fromAngle + shortestAngleDelta fromAngle toAngle) =
        normalizeAngle0ToTau toAngle := by
  intro f t
  have hpi := Real.pi_pos
  obtain ⟨ka, hka⟩ := normalizeAngle0ToTau_cong f
  obtain ⟨kb, hkb⟩ := normalizeAngle0ToTau_cong t
  have hma := normalizeAngle0ToTau_mem f
  have hmb := normalizeAngle0ToTau_mem t
  set a := normalizeAngle0ToTau f with hadef
  set b := normalizeAngle0ToTau t with hbdef
  have hsd : shortestAngleDelta f t =
      (if (if b - a > Real.pi then b - a - Real.pi * 2 else b - a) < -Real.pi
       then (if b - a > Real.pi then b - a - Real.pi * 2 else b - a) + Real.pi * 2
       else (if b - a > Real.pi then b - a - Real.pi * 2 else b - a)) := rfl
  rw [hsd]
  by_cases h1 : b - a > Real.pi
  · rw [if_pos h1]
    have h2 : ¬(b - a - Real.pi * 2 < -Real.pi) := by
      push_neg
      linarith
    rw [if_neg h2]
    refine ⟨by linarith, by linarith [hma.1, hmb.2], ?_⟩
    refine normalizeAngle0ToTau_eq_of_cong _ _ (kb - ka - ((1 : ℤ))) ?_
    have he : f + (b - a - Real.pi * 2) - t = (b - t) - (a - f) - Real.pi * 2 := by ring
    rw [he, hka, hkb]
    push_cast
    ring
  · rw [if_neg h1]
    push_neg at h1
    by_cases h3 : b - a < -Real.pi
    · rw [if_pos h3]
      refine ⟨by linarith [hma.2, hmb.1], by linarith, ?_⟩
      refine normalizeAngle0ToTau_eq_of_cong _ _ (kb - ka + 1) ?_
      have he : f + (b - a + Real.pi * 2) - t = (b - t) - (a - f) + Real.pi * 2 := by ring
      rw [he, hka, hkb]
      push_cast
      ring
    · rw [if_neg h3]
      push_neg at h3
      refine ⟨h3, h1, ?_⟩
      refine normalizeAngle0ToTau_eq_of_cong _ _ (kb - ka) ?_
      have he : f + (b - a) - t = (b - t) - (a - f) := by ring
      rw [he, hka, hkb]
      push_cast
      ring

/-- C9: the mesh pose solver is safe: when the direction from the look-at
target to the world position is degenerate (squared length below `1e-8`)
it falls back to the name-based default pose, and otherwise the returned
polar angle is clamped into `[0.001, pi - 0.001]`, hence strictly between
`0` and `pi` (never at a gimbal pole). -/
theorem C9_pose_solver_safety :
    ∀ (cfg : ConfigR) (meshName : String) (worldPos : Vec3R) (dOv : Option ℝ),
      ((Vec3R.sub worldPos (poseTarget cfg)).lengthSq < 1 / 100000000 →
        getCameraPoseForMesh cfg meshName worldPos dOv = getCameraPoseForFace cfg meshName) ∧
      (1 / 100000000 ≤ (Vec3R.sub worldPos (poseTarget cfg)).lengthSq →
        1 / 1000 ≤ (getCameraPoseForMesh cfg meshName worldPos dOv).polar ∧
        (getCameraPoseForMesh cfg meshName worldPos dOv).polar ≤ Real.pi - 1 / 1000 ∧
        0 < (getCameraPoseForMesh cfg meshName worldPos dOv).polar ∧
        (getCameraPoseForMesh cfg meshName worldPos dOv).polar < Real.pi) := by
  intro cfg meshName worldPos dOv
  have hpi : (3 : ℝ) < Real.pi := Real.pi_gt_three
  constructor
  · intro h
    unfold poseTarget at h
    unfold getCameraPoseForMesh
    dsimp only
    rw [if_pos h]
  · intro h
    have hn : ¬(Vec3R.sub worldPos (poseTarget cfg)).lengthSq < 1 / 100000000 := not_lt.mpr h
    unfold poseTarget at hn
    unfold getCameraPoseForMesh
    dsimp only
    rw [if_neg hn]
    dsimp only
    unfold clamp
    refine ⟨le_max_left _ _, max_le (by linarith) (min_le_left _ _), ?_, ?_⟩
    · exact lt_of_lt_of_le (by norm_num) (le_max_left _ _)
    · exact lt_of_le_of_lt (max_le (by linarith) (min_le_left _ _)) (by linarith)

/-- C9 witness: on the concrete configuration, a world position at the
target itself takes the degenerate fallback, and a position at distance 3
gets a polar angle strictly inside `(0, pi)`. -/
theorem C9_witness :
    getCameraPoseForMesh FixR.cfgR "face_h" ⟨0, 0, 0⟩ none =
      getCameraPoseForFace FixR.cfgR "face_h" ∧
    1 / 1000 ≤ (getCameraPoseForMesh FixR.cfgR "face_h" ⟨0, 0, 3⟩ none).polar ∧
    (getCameraPoseForMesh FixR.cfgR "face_h" ⟨0, 0, 3⟩ none).polar < Real.pi := by
  have h1 : (Vec3R.sub ⟨0, 0, 0⟩ (poseTarget FixR.cfgR)).lengthSq < 1 / 100000000 := by
    norm_num [Vec3R.sub, Vec3R.lengthSq, poseTarget, FixR.cfgR]
  have h2 : 1 / 100000000 ≤ (Vec3R.sub ⟨0, 0, 3⟩ (poseTarget FixR.cfgR)).lengthSq := by
    norm_num [Vec3R.sub, Vec3R.lengthSq, poseTarget, FixR.cfgR]
  refine ⟨(C9_pose_solver_safety FixR.cfgR "face_h" ⟨0, 0, 0⟩ none).1 h1, ?_, ?_⟩
  · exact ((C9_pose_solver_safety FixR.cfgR "face_h" ⟨0, 0, 3⟩ none).2 h2).1
  · exact ((C9_pose_solver_safety FixR.cfgR "face_h" ⟨0, 0, 3⟩ none).2 h2).2.2.2

end CubeR
